import Mathlib

/-!
Verification development for the object-storage abstraction and
multipart-upload orchestrator of `ghga-service-chassis-lib`
(`ghga_service_chassis_lib/object_storage_dao.py` and
`ghga_service_chassis_lib/s3.py`), shallowly embedded in Lean 4.

The backend (boto3/S3) is modelled by universally quantified response
values: each adapter operation takes, for every backend call it may issue,
the response the backend would return for that call, and produces both the
operation's outcome (a value or a raised domain error) and the ordered
trace of backend calls actually issued.
-/

/-- The closed error taxonomy of `object_storage_dao.py` (plus the plain
Python `ValueError` and `NotImplementedError` that the adapter can raise).
Constructors carry the data the corresponding exception class is
constructed from. -/
inductive StorageError where
  | outOfContextError
  | bucketIdValidationError (bucket_id : String) (reason : String)
  | objectIdValidationError (object_id : String) (reason : String)
  | bucketNotFoundError (bucket_id : Option String)
  | bucketAlreadyExists (bucket_id : Option String)
  | objectNotFoundError (bucket_id object_id : Option String)
  | objectAlreadyExistsError (bucket_id object_id : Option String)
  | multiPartUploadAlreadyExistsError (bucket_id object_id : String)
  | multipleActiveUploadsError (bucket_id object_id : String) (upload_ids : List String)
  | multiPartUploadNotFoundError (upload_id bucket_id object_id : String)
  | multiPartUploadConfirmError (upload_id bucket_id object_id : String) (reason : String)
  | multiPartUploadAbortError (upload_id bucket_id object_id : String)
  | bucketError (message : String)
  | objectError (message : String)
  | objectStorageDaoError (message : String)
  | valueError (message : Option String)
  | notImplementedError (message : String)
  deriving DecidableEq, Repr

/-- A boto3 `botocore.exceptions.ClientError`, reduced to the only field the
code inspects: `response["Error"]["Code"]`. -/
structure ClientError where
  code : String
  deriving DecidableEq, Repr

/-- Outcome of `_translate_s3_client_errors`: either it returns a domain
exception (which the caller then raises) or it itself raises a bare
`ValueError` (the `NoSuchUpload`-with-missing-context path). -/
inductive TranslateOutcome where
  | returns (e : StorageError)
  | raisesValueError
  deriving DecidableEq, Repr

/-- Python `needle in haystack` on strings (contiguous substring test). -/
def strContainsSub (haystack needle : String) : Bool :=
  (List.range (haystack.data.length + 1)).any
    (fun i => needle.data.isPrefixOf (haystack.data.drop i))

/-- A single-quote character, kept out of string literals. -/
def squote : String := String.singleton (Char.ofNat 39)

/-- `_format_s3_error_code` from `s3.py`. -/
def format_s3_error_code (error_code : String) : String :=
  "S3 error with code: " ++ squote ++ error_code ++ squote

/-- `_translate_s3_client_errors` from `s3.py`: exact matches on well-known
error codes first (the `NoSuchUpload` arm raises a bare `ValueError` when
any of upload/bucket/object context is missing), then keyword fallback on
the code string, then the generic `ObjectStorageDaoError`. -/
def translate_s3_client_errors (source_exception : ClientError)
    (upload_id bucket_id object_id : Option String) : TranslateOutcome :=
  let error_code := source_exception.code
  if error_code = "NoSuchBucket" then
    .returns (.bucketNotFoundError bucket_id)
  else if error_code = "BucketAlreadyExists" then
    .returns (.bucketAlreadyExists bucket_id)
  else if error_code = "NoSuchKey" then
    .returns (.objectNotFoundError bucket_id object_id)
  else if error_code = "ObjectAlreadyInActiveTierError" then
    .returns (.objectAlreadyExistsError bucket_id object_id)
  else if error_code = "NoSuchUpload" then
    match upload_id, bucket_id, object_id with
    | some u, some b, some o => .returns (.multiPartUploadNotFoundError u b o)
    | _, _, _ => .raisesValueError
  else if strContainsSub error_code "Bucket" then
    .returns (.bucketError (format_s3_error_code error_code))
  else if strContainsSub error_code "Object" || strContainsSub error_code "Key" then
    .returns (.objectError (format_s3_error_code error_code))
  else
    .returns (.objectStorageDaoError (format_s3_error_code error_code))

/-- The error effectively raised at a call site doing
`raise _translate_s3_client_errors(...)`: the returned domain error, or the
`ValueError` propagating out of the translator itself. -/
def raised (t : TranslateOutcome) : StorageError :=
  match t with
  | .returns e => e
  | .raisesValueError => .valueError none

/-- Character class `[a-z0-9-]` of the bucket-id regex. -/
def bucketIdChar (c : Char) : Bool :=
  c.isLower || c.isDigit || c = '-'

/-- Character class `[a-zA-Z0-9-.]` of the object-id regex. -/
def objectIdChar (c : Char) : Bool :=
  c.isLower || c.isUpper || c.isDigit || c = '-' || c = '.'

/-- Python `re.match` against an anchored pattern of shape `[cls]*` followed
by a dollar anchor, where `cls` excludes the newline character: the match
succeeds iff every character of the string satisfies `cls`, or the string
ends in a newline and every character before it satisfies `cls` (Python's
dollar anchor also matches just before a newline that terminates the
string). -/
def reMatchStarDollar (cls : Char → Bool) (s : String) : Bool :=
  s.data.all cls ||
    (match s.data.getLast? with
     | some c => c = '\n' && s.data.dropLast.all cls
     | none => false)

/-- Python `re.match` against the object-id leading-character pattern
(hyphen or dot first, then anything): succeeds iff the string is nonempty
and its first character is a hyphen or a dot. -/
def reMatchLeadingHyphenDot (s : String) : Bool :=
  match s.data.head? with
  | some c => c = '-' || c = '.'
  | none => false

/-- Python `re.match` against the object-id trailing-character pattern (a
run of non-newline characters, then a hyphen or dot, then the dollar
anchor): succeeds iff the last character is a hyphen or dot and everything
before it is newline-free, or the string ends in a newline whose preceding
character is a hyphen or dot with everything before that newline-free. -/
def reMatchTrailingHyphenDot (s : String) : Bool :=
  (match s.data.getLast? with
   | some c => (c = '-' || c = '.') && s.data.dropLast.all (fun x => x ≠ '\n')
   | none => false) ||
  (match s.data.getLast? with
   | some c =>
     c = '\n' &&
       (match s.data.dropLast.getLast? with
        | some c2 =>
          (c2 = '-' || c2 = '.') && s.data.dropLast.dropLast.all (fun x => x ≠ '\n')
        | none => false)
   | none => false)

/-- `validate_bucket_id` from `object_storage_dao.py`; `none` means the id
was accepted (the Python function returned without raising). -/
def validate_bucket_id (bucket_id : String) : Option StorageError :=
  if bucket_id.length < 3 || 63 < bucket_id.length then
    some (.bucketIdValidationError bucket_id
      "must be between 3 and 63 character long")
  else if !(reMatchStarDollar bucketIdChar bucket_id) then
    some (.bucketIdValidationError bucket_id
      "only lowercase letters, numbers, and hyphens (-) are allowd")
  else if bucket_id.data.head? = some '-' || bucket_id.data.getLast? = some '-' then
    some (.bucketIdValidationError bucket_id
      "may not start or end with a hyphen (-).")
  else
    none

/-- `validate_object_id` from `object_storage_dao.py`; `none` means the id
was accepted. -/
def validate_object_id (object_id : String) : Option StorageError :=
  if object_id.length < 3 || 63 < object_id.length then
    some (.objectIdValidationError object_id
      "must be between 3 and 63 character long")
  else if !(reMatchStarDollar objectIdChar object_id) then
    some (.objectIdValidationError object_id
      "only letters, numbers, and hyphens (-), and dots (.) are allowd")
  else if reMatchLeadingHyphenDot object_id || reMatchTrailingHyphenDot object_id then
    some (.objectIdValidationError object_id
      "may not start or end with a hyphen (-) or a dot (.).")
  else
    none

example : validate_bucket_id "my-bucket" = none := by decide
example : validate_bucket_id "ab" ≠ none := by decide
example : validate_object_id "my.object-1" = none := by decide
example : validate_object_id ".abc" ≠ none := by decide

/-- One uploaded part as reported by the backend in `list_parts`: the
fields the code reads (`PartNumber`, `Size`, `ETag`). -/
structure UploadPart where
  partNumber : Nat
  size : Nat
  eTag : String
  deriving DecidableEq, Repr

/-- `PresignedPostURL` from `object_storage_dao.py`. -/
structure PresignedPostURL where
  url : String
  fields : List (String × String)
  deriving DecidableEq, Repr

/-- A backend (boto3 client/resource) call issued by the adapter, with the
arguments the adapter passes. `uploadPartPresign` records the expiry
argument as an `Option` because the code passes no `ExpiresIn` there. -/
inductive BackendCall where
  | listBuckets
  | createBucket (bucket : String)
  | deleteBucketCall (bucket : String) (deleteContent : Bool)
  | headObject (bucket object : String)
  | generatePresignedPost (bucket object : String) (expiresIn : Nat)
      (maxUploadSize : Option Nat)
  | listMultipartUploads (bucket : String)
  | createMultipartUpload (bucket object : String)
  | uploadPartPresign (bucket object upload : String) (partNumber : Int)
      (expiresIn : Option Nat)
  | listParts (bucket object upload : String)
  | abortMultipartUploadCall (bucket object upload : String)
  | completeMultipartUploadCall (bucket object upload : String)
      (partETags : List (String × Nat))
  | getObjectPresign (bucket object : String) (expiresIn : Nat)
  | copyCall (srcBucket srcObject dstBucket dstObject : String)
  | deleteObjectCall (bucket object : String)
  deriving DecidableEq, Repr

/-- Result of running one adapter operation: its outcome (returned value or
raised error) together with the ordered list of backend calls it issued. -/
structure TraceM (α : Type) where
  result : Except StorageError α
  trace : List BackendCall
  deriving Repr

/-- Sequencing of traced computations: stop at the first raised error,
concatenating the backend-call traces. -/
def tBind {α β : Type} (x : TraceM α) (f : α → TraceM β) : TraceM β :=
  match x.result with
  | .error e => ⟨.error e, x.trace⟩
  | .ok a => ⟨(f a).result, x.trace ++ (f a).trace⟩

/-- A pure value, no backend call. -/
def tOk {α : Type} (a : α) : TraceM α := ⟨.ok a, []⟩

/-- Raising a domain error locally, no backend call. -/
def tRaise {α : Type} (e : StorageError) : TraceM α := ⟨.error e, []⟩

/-- Issuing one backend call: the call is recorded in the trace; a
`ClientError` response is turned into the error `onErr` produces (the
`except botocore.exceptions.ClientError ... raise translate(...)` idiom). -/
def tCall {α : Type} (c : BackendCall) (resp : Except ClientError α)
    (onErr : ClientError → StorageError) : TraceM α :=
  ⟨match resp with
   | .error ce => .error (onErr ce)
   | .ok a => .ok a,
   [c]⟩

@[simp] theorem tBind_result (x : TraceM α) (f : α → TraceM β) :
    (tBind x f).result = match x.result with
      | .error e => .error e
      | .ok a => (f a).result := by
  unfold tBind; cases x.result <;> rfl

@[simp] theorem tBind_trace (x : TraceM α) (f : α → TraceM β) :
    (tBind x f).trace = match x.result with
      | .error _ => x.trace
      | .ok a => x.trace ++ (f a).trace := by
  unfold tBind; cases x.result <;> rfl

/-- The session-holding adapter object `ObjectStorageS3`: whether the
`_client` and `_resource` handles are set (`isinstance(..., BaseClient)` /
`isinstance(..., ServiceResource)` succeed). -/
structure ObjectStorageS3 where
  client : Bool
  resource : Bool
  deriving DecidableEq, Repr

/-- `ObjectStorageS3.__init__`: both handles unset. -/
def ObjectStorageS3.mkNew : ObjectStorageS3 := ⟨false, false⟩

/-- `ObjectStorageS3.__enter__`: sets both the client and the resource. -/
def ObjectStorageS3.enter (_s : ObjectStorageS3) : ObjectStorageS3 := ⟨true, true⟩

/-- `ObjectStorageS3.__exit__`: clears only the reference to the client
instance; the resource handle is left untouched. -/
def ObjectStorageS3.exitContext (s : ObjectStorageS3) : ObjectStorageS3 :=
  { s with client := false }

/-- `does_bucket_exist`: session guard, id validation, one `list_buckets`
call, membership test on the returned bucket names. -/
def does_bucket_exist (st : ObjectStorageS3) (bucket_id : String)
    (listBucketsResp : Except ClientError (List String)) : TraceM Bool :=
  if !st.client then tRaise .outOfContextError
  else match validate_bucket_id bucket_id with
  | some e => tRaise e
  | none =>
    tBind (tCall .listBuckets listBucketsResp
        (fun ce => raised (translate_s3_client_errors ce none (some bucket_id) none)))
      (fun names => tOk (names.contains bucket_id))

/-- `_assert_bucket_exists`. -/
def assert_bucket_exists (st : ObjectStorageS3) (bucket_id : String)
    (listBucketsResp : Except ClientError (List String)) : TraceM Unit :=
  tBind (does_bucket_exist st bucket_id listBucketsResp)
    (fun b => if !b then tRaise (.bucketNotFoundError (some bucket_id)) else tOk ())

/-- `_assert_bucket_not_exists`. -/
def assert_bucket_not_exists (st : ObjectStorageS3) (bucket_id : String)
    (listBucketsResp : Except ClientError (List String)) : TraceM Unit :=
  tBind (does_bucket_exist st bucket_id listBucketsResp)
    (fun b => if b then tRaise (.bucketAlreadyExists (some bucket_id)) else tOk ())

/-- `create_bucket`: session guard, validation, absence assertion, then the
backend `create_bucket` call. -/
def create_bucket (st : ObjectStorageS3) (bucket_id : String)
    (listBucketsResp : Except ClientError (List String))
    (createResp : Except ClientError Unit) : TraceM Unit :=
  if !st.client then tRaise .outOfContextError
  else match validate_bucket_id bucket_id with
  | some e => tRaise e
  | none =>
    tBind (assert_bucket_not_exists st bucket_id listBucketsResp)
      (fun _ => tCall (.createBucket bucket_id) createResp
        (fun ce => raised (translate_s3_client_errors ce none (some bucket_id) none)))

/-- `delete_bucket`: guards on the RESOURCE handle (not the client),
validates, asserts existence (which re-guards on the client inside
`does_bucket_exist`), then the backend delete. -/
def delete_bucket (st : ObjectStorageS3) (bucket_id : String)
    (delete_content : Bool)
    (listBucketsResp : Except ClientError (List String))
    (deleteResp : Except ClientError Unit) : TraceM Unit :=
  if !st.resource then tRaise .outOfContextError
  else match validate_bucket_id bucket_id with
  | some e => tRaise e
  | none =>
    tBind (assert_bucket_exists st bucket_id listBucketsResp)
      (fun _ => tCall (.deleteBucketCall bucket_id delete_content) deleteResp
        (fun ce => raised (translate_s3_client_errors ce none (some bucket_id) none)))

/-- `does_object_exist`: session guard, unimplemented md5 branch,
validation of both ids, then one `head_object` call whose `ClientError` is
swallowed into `False` (no translation). -/
def does_object_exist (st : ObjectStorageS3) (bucket_id object_id : String)
    (object_md5sum : Option String)
    (headResp : Except ClientError Unit) : TraceM Bool :=
  if !st.client then tRaise .outOfContextError
  else if object_md5sum.isSome then
    tRaise (.notImplementedError "Md5 checking is not yet implemented.")
  else match validate_bucket_id bucket_id with
  | some e => tRaise e
  | none =>
    match validate_object_id object_id with
    | some e => tRaise e
    | none =>
      ⟨match headResp with
       | .error _ => .ok false
       | .ok _ => .ok true,
       [.headObject bucket_id object_id]⟩

/-- `_assert_object_exists`: bucket existence first, then the object
head-check. -/
def assert_object_exists (st : ObjectStorageS3) (bucket_id object_id : String)
    (listBucketsResp : Except ClientError (List String))
    (headResp : Except ClientError Unit) : TraceM Unit :=
  tBind (assert_bucket_exists st bucket_id listBucketsResp)
    (fun _ => tBind (does_object_exist st bucket_id object_id none headResp)
      (fun b => if !b then
          tRaise (.objectNotFoundError (some bucket_id) (some object_id))
        else tOk ()))

/-- `_assert_object_not_exists`. -/
def assert_object_not_exists (st : ObjectStorageS3) (bucket_id object_id : String)
    (listBucketsResp : Except ClientError (List String))
    (headResp : Except ClientError Unit) : TraceM Unit :=
  tBind (assert_bucket_exists st bucket_id listBucketsResp)
    (fun _ => tBind (does_object_exist st bucket_id object_id none headResp)
      (fun b => if b then
          tRaise (.objectAlreadyExistsError (some bucket_id) (some object_id))
        else tOk ()))

/-- `get_object_upload_url`: validation, destination-absence assertion,
then `generate_presigned_post` with `ExpiresIn = expires_after` (signature
default 86400) and the optional size condition. -/
def get_object_upload_url (st : ObjectStorageS3) (bucket_id object_id : String)
    (expires_after : Nat) (max_upload_size : Option Nat)
    (listBucketsResp : Except ClientError (List String))
    (headResp : Except ClientError Unit)
    (presignResp : Except ClientError (String × List (String × String))) :
    TraceM PresignedPostURL :=
  if !st.client then tRaise .outOfContextError
  else match validate_bucket_id bucket_id with
  | some e => tRaise e
  | none =>
    match validate_object_id object_id with
    | some e => tRaise e
    | none =>
      tBind (assert_object_not_exists st bucket_id object_id listBucketsResp headResp)
        (fun _ =>
          tBind (tCall
              (.generatePresignedPost bucket_id object_id expires_after max_upload_size)
              presignResp
              (fun ce => raised (translate_s3_client_errors ce none
                (some bucket_id) (some object_id))))
            (fun p => tOk ⟨p.1, p.2⟩))

/-- `get_object_upload_url` invoked with the Python defaults
(`expires_after=86400`, `max_upload_size=None`). -/
def get_object_upload_url_default (st : ObjectStorageS3)
    (bucket_id object_id : String)
    (listBucketsResp : Except ClientError (List String))
    (headResp : Except ClientError Unit)
    (presignResp : Except ClientError (String × List (String × String))) :
    TraceM PresignedPostURL :=
  get_object_upload_url st bucket_id object_id 86400 none
    listBucketsResp headResp presignResp

/-- `_list_mulitpart_upload_for_object`: one `list_multipart_uploads` call;
if the response carries an `Uploads` list (entries are `(UploadId, Key)`
pairs), keep the ids whose `Key` equals the object id; otherwise return the
empty list. -/
def list_mulitpart_upload_for_object (st : ObjectStorageS3)
    (bucket_id object_id : String)
    (listUploadsResp : Except ClientError (Option (List (String × String)))) :
    TraceM (List String) :=
  if !st.client then tRaise .outOfContextError
  else
    tBind (tCall (.listMultipartUploads bucket_id) listUploadsResp
        (fun ce => raised (translate_s3_client_errors ce none
          (some bucket_id) (some object_id))))
      (fun uploadsField =>
        match uploadsField with
        | some upload_list =>
          tOk (upload_list.filterMap
            (fun u => if u.2 = object_id then some u.1 else none))
        | none => tOk [])

/-- `_assert_no_multipart_upload`: any active upload for the object makes
initiation fail. -/
def assert_no_multipart_upload (st : ObjectStorageS3)
    (bucket_id object_id : String)
    (listUploadsResp : Except ClientError (Option (List (String × String)))) :
    TraceM Unit :=
  tBind (list_mulitpart_upload_for_object st bucket_id object_id listUploadsResp)
    (fun upload_ids =>
      if upload_ids.length > 0 then
        tRaise (.multiPartUploadAlreadyExistsError bucket_id object_id)
      else tOk ())

/-- `_assert_multipart_upload_exist`: exclusivity check (when enabled)
before the membership check. -/
def assert_multipart_upload_exist (st : ObjectStorageS3)
    (upload_id bucket_id object_id : String)
    (assert_exclusiveness : Bool)
    (listUploadsResp : Except ClientError (Option (List (String × String)))) :
    TraceM Unit :=
  if !st.client then tRaise .outOfContextError
  else
    tBind (list_mulitpart_upload_for_object st bucket_id object_id listUploadsResp)
      (fun upload_ids =>
        if assert_exclusiveness && upload_ids.length > 1 then
          tRaise (.multipleActiveUploadsError bucket_id object_id upload_ids)
        else if !(upload_ids.contains upload_id) then
          tRaise (.multiPartUploadNotFoundError upload_id bucket_id object_id)
        else tOk ())

/-- `init_multipart_upload`: session guard, the no-active-upload assertion
(note: no identifier validation), then `create_multipart_upload`. -/
def init_multipart_upload (st : ObjectStorageS3) (bucket_id object_id : String)
    (listUploadsResp : Except ClientError (Option (List (String × String))))
    (createResp : Except ClientError String) : TraceM String :=
  if !st.client then tRaise .outOfContextError
  else
    tBind (assert_no_multipart_upload st bucket_id object_id listUploadsResp)
      (fun _ => tCall (.createMultipartUpload bucket_id object_id) createResp
        (fun ce => raised (translate_s3_client_errors ce none
          (some bucket_id) (some object_id))))

/-- `get_part_upload_url`: session guard, part-number range guard
(`ValueError`), existence/exclusivity assertion, then a presigned
`upload_part` URL — issued WITHOUT any `ExpiresIn` argument. -/
def get_part_upload_url (st : ObjectStorageS3)
    (upload_id bucket_id object_id : String) (part_number : Int)
    (listUploadsResp : Except ClientError (Option (List (String × String))))
    (presignResp : Except ClientError String) : TraceM String :=
  if !st.client then tRaise .outOfContextError
  else if !(0 < part_number && part_number ≤ 10000) then
    tRaise (.valueError (some
      ("The part number must be a non-zero positive integer"
        ++ " smaller or equal to 10000")))
  else
    tBind (assert_multipart_upload_exist st upload_id bucket_id object_id true
        listUploadsResp)
      (fun _ => tCall
        (.uploadPartPresign bucket_id object_id upload_id part_number none)
        presignResp
        (fun ce => raised (translate_s3_client_errors ce (some upload_id)
          (some bucket_id) (some object_id))))

/-- Python f-string rendering of an `Optional[int]`: the decimal digits, or
the text `None`. -/
def pyReprOptNat (o : Option Nat) : String :=
  match o with
  | some n => toString n
  | none => "None"

/-- `_get_parts_info`: existence/exclusivity assertion (exclusivity ON —
the default), then `list_parts`; the response's optional `Parts` list. -/
def get_parts_info (st : ObjectStorageS3)
    (upload_id bucket_id object_id : String)
    (listUploadsResp : Except ClientError (Option (List (String × String))))
    (listPartsResp : Except ClientError (Option (List UploadPart))) :
    TraceM (Option (List UploadPart)) :=
  if !st.client then tRaise .outOfContextError
  else
    tBind (assert_multipart_upload_exist st upload_id bucket_id object_id true
        listUploadsResp)
      (fun _ => tCall (.listParts bucket_id object_id upload_id) listPartsResp
        (fun ce => raised (translate_s3_client_errors ce (some upload_id)
          (some bucket_id) (some object_id))))

/-- `_check_uploaded_parts` from `s3.py`, checked in source order: a
session guard; the zero-parts rejection (`Parts` key absent or empty); the
exact-quantity check when `anticipated_part_quantity` is supplied; when
`anticipated_part_size` is supplied, the first-part comparison (only when
`anticipated_part_quantity` is supplied and exceeds one) and the last-part
upper bound; the last-part-not-larger-than-first check; and finally the
interior parts (Python slice `[1 : part_quantity - 1]`) against the first
part's size, raising at the first offender. The reason strings reproduce
the source's f-strings verbatim, including its interpolation of
`anticipated_part_quantity` in the two size messages. -/
def check_uploaded_parts (st : ObjectStorageS3)
    (upload_id bucket_id object_id : String)
    (parts_info : Option (List UploadPart))
    (anticipated_part_quantity anticipated_part_size : Option Nat) :
    TraceM Unit :=
  if !st.client then tRaise .outOfContextError
  else
    match parts_info with
    | none => tRaise (.multiPartUploadConfirmError upload_id bucket_id object_id
        "Zero parts received.")
    | some parts =>
      match parts with
      | [] => tRaise (.multiPartUploadConfirmError upload_id bucket_id object_id
          "Zero parts received.")
      | p0 :: rest =>
        let part_quantity := (p0 :: rest).length
        if anticipated_part_quantity.isSome ∧
            part_quantity ≠ anticipated_part_quantity.getD 0 then
          tRaise (.multiPartUploadConfirmError upload_id bucket_id object_id
            ("Found " ++ toString part_quantity ++ " parts but expect "
              ++ pyReprOptNat anticipated_part_quantity ++ "."))
        else
          let first_part_size := p0.size
          let last_part_size := ((p0 :: rest).getLastD p0).size
          if anticipated_part_size.isSome ∧
              anticipated_part_quantity.isSome ∧
              anticipated_part_quantity.getD 0 > 1 ∧
              first_part_size ≠ anticipated_part_size.getD 0 then
            tRaise (.multiPartUploadConfirmError upload_id bucket_id object_id
              ("The first part has a size of " ++ toString first_part_size
                ++ " bytes but expected "
                ++ pyReprOptNat anticipated_part_quantity ++ "."))
          else if anticipated_part_size.isSome ∧
              last_part_size > anticipated_part_size.getD 0 then
            tRaise (.multiPartUploadConfirmError upload_id bucket_id object_id
              ("The last part has a size of " ++ toString last_part_size
                ++ " bytes which is larger than the anticipated size of "
                ++ pyReprOptNat anticipated_part_quantity ++ "."))
          else if last_part_size > first_part_size then
            tRaise (.multiPartUploadConfirmError upload_id bucket_id object_id
              ("The last part has a size of " ++ toString last_part_size
                ++ " bytes which is larger than the size of the first part"
                ++ " that was " ++ toString first_part_size ++ "."))
          else
            match (((p0 :: rest).take (part_quantity - 1)).drop 1).find?
                (fun part => part.size != first_part_size) with
            | some part =>
              tRaise (.multiPartUploadConfirmError upload_id bucket_id object_id
                ("Part number " ++ toString part.partNumber
                  ++ " has a size of " ++ toString part.size
                  ++ " bytes which is different than the size of the"
                  ++ " first part " ++ toString first_part_size ++ "."))
            | none => tOk ()

/-- `abort_multipart_upload`: the existence assertion with exclusivity
DISABLED, the backend abort call, then the post-abort verification through
`_get_parts_info` (which re-asserts existence with exclusivity ENABLED),
catching only `MultiPartUploadNotFoundError` as proof of abortion; any
remaining parts raise `MultiPartUploadAbortError`. -/
def abort_multipart_upload (st : ObjectStorageS3)
    (upload_id bucket_id object_id : String)
    (listUploadsResp1 : Except ClientError (Option (List (String × String))))
    (abortResp : Except ClientError Unit)
    (listUploadsResp2 : Except ClientError (Option (List (String × String))))
    (listPartsResp : Except ClientError (Option (List UploadPart))) :
    TraceM Unit :=
  if !st.client then tRaise .outOfContextError
  else
    tBind (assert_multipart_upload_exist st upload_id bucket_id object_id false
        listUploadsResp1)
      (fun _ =>
        tBind (tCall (.abortMultipartUploadCall bucket_id object_id upload_id)
            abortResp
            (fun ce => raised (translate_s3_client_errors ce (some upload_id)
              (some bucket_id) (some object_id))))
          (fun _ =>
            let inner := get_parts_info st upload_id bucket_id object_id
              listUploadsResp2 listPartsResp
            match inner.result with
            | .error (.multiPartUploadNotFoundError _ _ _) =>
              ⟨.ok (), inner.trace⟩
            | .error e => ⟨.error e, inner.trace⟩
            | .ok parts_info =>
              match parts_info with
              | some parts =>
                if parts.length > 0 then
                  ⟨.error (.multiPartUploadAbortError upload_id bucket_id
                    object_id), inner.trace⟩
                else ⟨.ok (), inner.trace⟩
              | none => ⟨.ok (), inner.trace⟩))

/-- `complete_multipart_upload`: fetch the part inventory (via
`_get_parts_info`), run `_check_uploaded_parts`, assemble the ordered
`(ETag, PartNumber)` list, then the backend completion call. (After a
successful check the inventory is necessarily present and nonempty, so
`getD []` coincides with the source's direct key access.) -/
def complete_multipart_upload (st : ObjectStorageS3)
    (upload_id bucket_id object_id : String)
    (anticipated_part_quantity anticipated_part_size : Option Nat)
    (listUploadsResp : Except ClientError (Option (List (String × String))))
    (listPartsResp : Except ClientError (Option (List UploadPart)))
    (completeResp : Except ClientError Unit) : TraceM Unit :=
  if !st.client then tRaise .outOfContextError
  else
    tBind (get_parts_info st upload_id bucket_id object_id listUploadsResp
        listPartsResp)
      (fun parts_info =>
        tBind (check_uploaded_parts st upload_id bucket_id object_id parts_info
            anticipated_part_quantity anticipated_part_size)
          (fun _ =>
            let part_etags := (parts_info.getD []).map
              (fun part => (part.eTag, part.partNumber))
            tCall (.completeMultipartUploadCall bucket_id object_id upload_id
                part_etags)
              completeResp
              (fun ce => raised (translate_s3_client_errors ce (some upload_id)
                (some bucket_id) (some object_id)))))

/-- `get_object_download_url`: validation, source-existence assertion, then
a presigned GET with `ExpiresIn = expires_after` (signature default
86400). -/
def get_object_download_url (st : ObjectStorageS3)
    (bucket_id object_id : String) (expires_after : Nat)
    (listBucketsResp : Except ClientError (List String))
    (headResp : Except ClientError Unit)
    (presignResp : Except ClientError String) : TraceM String :=
  if !st.client then tRaise .outOfContextError
  else match validate_bucket_id bucket_id with
  | some e => tRaise e
  | none =>
    match validate_object_id object_id with
    | some e => tRaise e
    | none =>
      tBind (assert_object_exists st bucket_id object_id listBucketsResp headResp)
        (fun _ => tCall (.getObjectPresign bucket_id object_id expires_after)
          presignResp
          (fun ce => raised (translate_s3_client_errors ce none
            (some bucket_id) (some object_id))))

/-- `get_object_download_url` invoked with the Python default
`expires_after=86400`. -/
def get_object_download_url_default (st : ObjectStorageS3)
    (bucket_id object_id : String)
    (listBucketsResp : Except ClientError (List String))
    (headResp : Except ClientError Unit)
    (presignResp : Except ClientError String) : TraceM String :=
  get_object_download_url st bucket_id object_id 86400
    listBucketsResp headResp presignResp

/-- `copy_object`: validation of all four ids, source must exist,
destination must be absent, then the backend copy (whose errors are
translated WITHOUT context). -/
def copy_object (st : ObjectStorageS3)
    (source_bucket_id source_object_id dest_bucket_id dest_object_id : String)
    (listBucketsResp1 : Except ClientError (List String))
    (headResp1 : Except ClientError Unit)
    (listBucketsResp2 : Except ClientError (List String))
    (headResp2 : Except ClientError Unit)
    (copyResp : Except ClientError Unit) : TraceM Unit :=
  if !st.client then tRaise .outOfContextError
  else match validate_bucket_id source_bucket_id with
  | some e => tRaise e
  | none =>
    match validate_object_id source_object_id with
    | some e => tRaise e
    | none =>
      match validate_bucket_id dest_bucket_id with
      | some e => tRaise e
      | none =>
        match validate_object_id dest_object_id with
        | some e => tRaise e
        | none =>
          tBind (assert_object_exists st source_bucket_id source_object_id
              listBucketsResp1 headResp1)
            (fun _ =>
              tBind (assert_object_not_exists st dest_bucket_id dest_object_id
                  listBucketsResp2 headResp2)
                (fun _ => tCall (.copyCall source_bucket_id source_object_id
                    dest_bucket_id dest_object_id) copyResp
                  (fun ce => raised
                    (translate_s3_client_errors ce none none none))))

/-- `delete_object`: validation, existence assertion, then the backend
delete. (Its unused `expires_after` parameter, Python default 86400, is
kept for fidelity to the signature.) -/
def delete_object (st : ObjectStorageS3) (bucket_id object_id : String)
    (_expires_after : Nat)
    (listBucketsResp : Except ClientError (List String))
    (headResp : Except ClientError Unit)
    (deleteResp : Except ClientError Unit) : TraceM Unit :=
  if !st.client then tRaise .outOfContextError
  else match validate_bucket_id bucket_id with
  | some e => tRaise e
  | none =>
    match validate_object_id object_id with
    | some e => tRaise e
    | none =>
      tBind (assert_object_exists st bucket_id object_id listBucketsResp headResp)
        (fun _ => tCall (.deleteObjectCall bucket_id object_id) deleteResp
          (fun ce => raised (translate_s3_client_errors ce none
            (some bucket_id) (some object_id))))

/-- The filter `_list_mulitpart_upload_for_object` applies to the backend's
upload list: the ids of entries whose `Key` is the given object. -/
def activeUploadIds (uploads : List (String × String)) (object_id : String) :
    List String :=
  uploads.filterMap (fun u => if u.2 = object_id then some u.1 else none)

/-- Discriminator: is this error one of the two identifier-validation
errors? -/
def StorageError.isValidationError : StorageError → Bool
  | .bucketIdValidationError _ _ => true
  | .objectIdValidationError _ _ => true
  | _ => false

/-- Discriminator: is this backend call the multipart completion call? -/
def BackendCall.isCompletionCall : BackendCall → Bool
  | .completeMultipartUploadCall _ _ _ _ => true
  | _ => false

theorem list_mulitpart_upload_result (st : ObjectStorageS3)
    (hopen : st.client = true) (bucket_id object_id : String)
    (ups : List (String × String)) :
    list_mulitpart_upload_for_object st bucket_id object_id (.ok (some ups))
      = ⟨.ok (activeUploadIds ups object_id), [.listMultipartUploads bucket_id]⟩ := by
  simp [list_mulitpart_upload_for_object, hopen, tBind, tCall, tOk, activeUploadIds]

/-- C10: for identifiers passing validation on an open session,
`does_object_exist` swallows every backend client error from the
head-object call into `False` (raising nothing, in particular no translated
domain error), and returns `True` exactly when the head-object call
succeeds. -/
theorem c10_does_object_exist_swallows_client_errors
    (st : ObjectStorageS3) (hopen : st.client = true)
    (bucket_id object_id : String)
    (hb : validate_bucket_id bucket_id = none)
    (ho : validate_object_id object_id = none) :
    (∀ ce : ClientError,
      does_object_exist st bucket_id object_id none (.error ce)
        = ⟨.ok false, [.headObject bucket_id object_id]⟩) ∧
    does_object_exist st bucket_id object_id none (.ok ())
      = ⟨.ok true, [.headObject bucket_id object_id]⟩ := by
  constructor
  · intro ce
    simp [does_object_exist, hopen, hb, ho]
  · simp [does_object_exist, hopen, hb, ho]

/-- Witness for `c10_does_object_exist_swallows_client_errors` at a
concrete open adapter and concrete valid identifiers. -/
theorem c10_witness :
    (∀ ce : ClientError,
      does_object_exist ⟨true, true⟩ "bkt" "my.obj" none (.error ce)
        = ⟨.ok false, [.headObject "bkt" "my.obj"]⟩) ∧
    does_object_exist ⟨true, true⟩ "bkt" "my.obj" none (.ok ())
      = ⟨.ok true, [.headObject "bkt" "my.obj"]⟩ :=
  c10_does_object_exist_swallows_client_errors ⟨true, true⟩ rfl "bkt" "my.obj"
    (by decide) (by decide)

theorem reMatchStarDollar_iff (cls : Char → Bool) (s : String) :
    reMatchStarDollar cls s = true ↔
      ((∀ c ∈ s.data, cls c = true) ∨
        (s.data.getLast? = some '\n' ∧ ∀ c ∈ s.data.dropLast, cls c = true)) := by
  unfold reMatchStarDollar
  cases h : s.data.getLast? with
  | none => simp [h, List.all_eq_true]
  | some c =>
    by_cases hc : c = '\n' <;>
      simp [h, hc, List.all_eq_true]

theorem validate_bucket_id_none_iff (s : String) :
    validate_bucket_id s = none ↔
      3 ≤ s.length ∧ s.length ≤ 63 ∧
      (((∀ c ∈ s.data, bucketIdChar c = true) ∧
          s.data.head? ≠ some '-' ∧ s.data.getLast? ≠ some '-') ∨
        (s.data.getLast? = some '\n' ∧
          (∀ c ∈ s.data.dropLast, bucketIdChar c = true) ∧
          s.data.head? ≠ some '-')) := by
  unfold validate_bucket_id
  split
  · rename_i h
    simp only [Bool.or_eq_true, decide_eq_true_eq] at h
    simp only [reduceCtorEq, false_iff, not_and]
    intro a b
    omega
  · rename_i h1
    simp only [Bool.or_eq_true, decide_eq_true_eq, not_or, not_lt] at h1
    split
    · rename_i h2
      simp only [Bool.not_eq_true'] at h2
      simp only [reduceCtorEq, false_iff]
      rintro ⟨-, -, hcase⟩
      have : reMatchStarDollar bucketIdChar s = true := by
        rw [reMatchStarDollar_iff]
        rcases hcase with ⟨hall, -, -⟩ | ⟨hlast, hrest, -⟩
        · exact Or.inl hall
        · exact Or.inr ⟨hlast, hrest⟩
      rw [h2] at this
      cases this
    · rename_i h2
      simp only [Bool.not_eq_true', Bool.not_eq_false] at h2
      rw [reMatchStarDollar_iff] at h2
      split
      · rename_i h3
        simp only [Bool.or_eq_true, decide_eq_true_eq] at h3
        simp only [reduceCtorEq, false_iff]
        rintro ⟨-, -, hcase⟩
        rcases hcase with ⟨-, hh, hl⟩ | ⟨hlast, -, hh⟩
        · rcases h3 with h3 | h3
          · exact hh h3
          · exact hl h3
        · rcases h3 with h3 | h3
          · exact hh h3
          · rw [hlast] at h3
            simp at h3
      · rename_i h3
        simp only [Bool.or_eq_true, decide_eq_true_eq, not_or] at h3
        simp only [true_iff]
        refine ⟨h1.1, h1.2, ?_⟩
        rcases h2 with hall | ⟨hlast, hrest⟩
        · exact Or.inl ⟨hall, h3.1, h3.2⟩
        · exact Or.inr ⟨hlast, hrest, h3.1⟩

theorem no_newline_of_objectIdChar {l : List Char}
    (h : ∀ c ∈ l, objectIdChar c = true) : ∀ c ∈ l, c ≠ '\n' := by
  intro c hc e
  subst e
  exact absurd (h _ hc) (by decide)

theorem validate_object_id_none_iff (s : String) :
    validate_object_id s = none ↔
      3 ≤ s.length ∧ s.length ≤ 63 ∧
      (((∀ c ∈ s.data, objectIdChar c = true) ∧
          (∀ c, s.data.head? = some c → c ≠ '-' ∧ c ≠ '.') ∧
          (∀ c, s.data.getLast? = some c → c ≠ '-' ∧ c ≠ '.')) ∨
        (s.data.getLast? = some '\n' ∧
          (∀ c ∈ s.data.dropLast, objectIdChar c = true) ∧
          (∀ c, s.data.head? = some c → c ≠ '-' ∧ c ≠ '.') ∧
          (∀ c, s.data.dropLast.getLast? = some c → c ≠ '-' ∧ c ≠ '.'))) := by
  unfold validate_object_id
  split
  · rename_i h
    simp only [Bool.or_eq_true, decide_eq_true_eq] at h
    simp only [reduceCtorEq, false_iff, not_and]
    intro a b
    omega
  · rename_i h1
    simp only [Bool.or_eq_true, decide_eq_true_eq, not_or, not_lt] at h1
    split
    · rename_i h2
      simp only [Bool.not_eq_true'] at h2
      simp only [reduceCtorEq, false_iff]
      rintro ⟨-, -, hcase⟩
      have : reMatchStarDollar objectIdChar s = true := by
        rw [reMatchStarDollar_iff]
        rcases hcase with ⟨hall, -, -⟩ | ⟨hlast, hrest, -, -⟩
        · exact Or.inl hall
        · exact Or.inr ⟨hlast, hrest⟩
      rw [h2] at this
      cases this
    · rename_i h2
      simp only [Bool.not_eq_true', Bool.not_eq_false] at h2
      rw [reMatchStarDollar_iff] at h2
      split
      · rename_i h3
        simp only [Bool.or_eq_true] at h3
        simp only [reduceCtorEq, false_iff]
        rintro ⟨-, -, hcase⟩
        rcases hcase with ⟨hall, hh, hl⟩ | ⟨hlast, hrest, hh, hl2⟩
        · rcases h3 with h3 | h3
          · unfold reMatchLeadingHyphenDot at h3
            rcases hd : s.data.head? with - | c
            · rw [hd] at h3; cases h3
            · rw [hd] at h3
              simp only [Bool.or_eq_true, decide_eq_true_eq] at h3
              rcases h3 with e | e
              · exact (hh c hd).1 e
              · exact (hh c hd).2 e
          · unfold reMatchTrailingHyphenDot at h3
            rcases hlq : s.data.getLast? with - | c
            · rw [hlq] at h3; cases h3
            · rw [hlq] at h3
              simp only [Bool.or_eq_true, Bool.and_eq_true, decide_eq_true_eq] at h3
              rcases h3 with ⟨e, -⟩ | ⟨e, -⟩
              · rcases e with e | e
                · exact (hl c hlq).1 e
                · exact (hl c hlq).2 e
              · subst e
                have hmem := List.mem_of_mem_getLast? hlq
                exact absurd (hall _ hmem) (by decide)
        · rcases h3 with h3 | h3
          · unfold reMatchLeadingHyphenDot at h3
            rcases hd : s.data.head? with - | c
            · rw [hd] at h3; cases h3
            · rw [hd] at h3
              simp only [Bool.or_eq_true, decide_eq_true_eq] at h3
              rcases h3 with e | e
              · exact (hh c hd).1 e
              · exact (hh c hd).2 e
          · unfold reMatchTrailingHyphenDot at h3
            rw [hlast] at h3
            rcases hlq2 : s.data.dropLast.getLast? with - | c2 <;>
              rw [hlq2] at h3 <;> simp at h3
            rcases h3.1 with e | e
            · exact (hl2 c2 hlq2).1 e
            · exact (hl2 c2 hlq2).2 e
      · rename_i h3
        simp only [Bool.or_eq_true, not_or] at h3
        simp only [true_iff]
        refine ⟨h1.1, h1.2, ?_⟩
        rcases h2 with hall | ⟨hlast, hrest⟩
        · refine Or.inl ⟨hall, ?_, ?_⟩
          · intro c hd
            constructor <;> intro e <;> subst e <;>
              exact h3.1 (by unfold reMatchLeadingHyphenDot; rw [hd]; simp)
          · intro c hlq
            have hnl : ∀ x ∈ s.data.dropLast, x ≠ '\n' :=
              fun x hx => no_newline_of_objectIdChar hall x
                ((List.dropLast_sublist s.data).subset hx)
            constructor <;> intro e <;> subst e <;>
              refine h3.2 ?_ <;>
              · unfold reMatchTrailingHyphenDot
                rw [hlq]
                simp only [Bool.or_eq_true, Bool.and_eq_true, decide_eq_true_eq]
                refine Or.inl ⟨by simp, ?_⟩
                rw [List.all_eq_true]
                intro x hx
                simpa using hnl x hx
        · refine Or.inr ⟨hlast, hrest, ?_, ?_⟩
          · intro c hd
            constructor <;> intro e <;> subst e <;>
              exact h3.1 (by unfold reMatchLeadingHyphenDot; rw [hd]; simp)
          · intro c2 hlq2
            have hnl : ∀ x ∈ s.data.dropLast.dropLast, x ≠ '\n' :=
              fun x hx => no_newline_of_objectIdChar hrest x
                ((List.dropLast_sublist s.data.dropLast).subset hx)
            constructor <;> intro e <;> subst e <;>
              refine h3.2 ?_ <;>
              · unfold reMatchTrailingHyphenDot
                rw [hlast, hlq2]
                simp only [Bool.or_eq_true, Bool.and_eq_true, decide_eq_true_eq]
                refine Or.inr ⟨by simp, by simp, ?_⟩
                rw [List.all_eq_true]
                intro x hx
                simpa using hnl x hx

/-- C7 (counterexample): the string of characters `a`, `b`, newline is
accepted by both validators although it contains a newline, which is
outside the advertised character classes — so neither validator accepts
exactly the claimed sets. -/
theorem c7_counterexample :
    validate_bucket_id "ab\n" = none ∧
    validate_object_id "ab\n" = none ∧
    ("ab\n".data.all bucketIdChar) = false ∧
    ("ab\n".data.all objectIdChar) = false := by decide

/-- C7 (amended): `validate_bucket_id` accepts exactly the strings of 3–63
characters that either consist only of lowercase ASCII letters, digits and
hyphens and neither start nor end with a hyphen, or consist of such
characters followed by one terminating newline and do not start with a
hyphen (Python's dollar anchor also matches before a terminating newline,
and the newline then masks the final-hyphen check); `validate_object_id`
accepts exactly the strings of 3–63 characters that either consist only of
letters of any case, digits, hyphens and dots and neither start nor end
with a hyphen or dot, or consist of such characters followed by one
terminating newline, do not start with a hyphen or dot, and whose character
before the newline is not a hyphen or dot; for every rejected input the
violated rule is determined in the fixed order length, character class,
then leading/trailing restriction, with the corresponding fixed reason. -/
theorem c7_amended_validator_characterization (s : String) :
    (validate_bucket_id s = none ↔
      3 ≤ s.length ∧ s.length ≤ 63 ∧
      (((∀ c ∈ s.data, bucketIdChar c = true) ∧
          s.data.head? ≠ some '-' ∧ s.data.getLast? ≠ some '-') ∨
        (s.data.getLast? = some '\n' ∧
          (∀ c ∈ s.data.dropLast, bucketIdChar c = true) ∧
          s.data.head? ≠ some '-'))) ∧
    (validate_object_id s = none ↔
      3 ≤ s.length ∧ s.length ≤ 63 ∧
      (((∀ c ∈ s.data, objectIdChar c = true) ∧
          (∀ c, s.data.head? = some c → c ≠ '-' ∧ c ≠ '.') ∧
          (∀ c, s.data.getLast? = some c → c ≠ '-' ∧ c ≠ '.')) ∨
        (s.data.getLast? = some '\n' ∧
          (∀ c ∈ s.data.dropLast, objectIdChar c = true) ∧
          (∀ c, s.data.head? = some c → c ≠ '-' ∧ c ≠ '.') ∧
          (∀ c, s.data.dropLast.getLast? = some c → c ≠ '-' ∧ c ≠ '.')))) ∧
    ((s.length < 3 ∨ 63 < s.length) →
      validate_bucket_id s = some (.bucketIdValidationError s
        "must be between 3 and 63 character long") ∧
      validate_object_id s = some (.objectIdValidationError s
        "must be between 3 and 63 character long")) ∧
    (3 ≤ s.length → s.length ≤ 63 → reMatchStarDollar bucketIdChar s = false →
      validate_bucket_id s = some (.bucketIdValidationError s
        "only lowercase letters, numbers, and hyphens (-) are allowd")) ∧
    (3 ≤ s.length → s.length ≤ 63 → reMatchStarDollar bucketIdChar s = true →
      (s.data.head? = some '-' ∨ s.data.getLast? = some '-') →
      validate_bucket_id s = some (.bucketIdValidationError s
        "may not start or end with a hyphen (-).")) ∧
    (3 ≤ s.length → s.length ≤ 63 → reMatchStarDollar objectIdChar s = false →
      validate_object_id s = some (.objectIdValidationError s
        "only letters, numbers, and hyphens (-), and dots (.) are allowd")) ∧
    (3 ≤ s.length → s.length ≤ 63 → reMatchStarDollar objectIdChar s = true →
      (reMatchLeadingHyphenDot s = true ∨ reMatchTrailingHyphenDot s = true) →
      validate_object_id s = some (.objectIdValidationError s
        "may not start or end with a hyphen (-) or a dot (.).")) := by
  refine ⟨validate_bucket_id_none_iff s, validate_object_id_none_iff s,
    ?_, ?_, ?_, ?_, ?_⟩
  · intro h
    have hb : (s.length < 3 || 63 < s.length) = true := by simpa using h
    constructor
    · simp [validate_bucket_id, hb]
    · simp [validate_object_id, hb]
  · intro h1 h2 hre
    have hb : (s.length < 3 || 63 < s.length) = false := by
      simp only [Bool.or_eq_false_iff, decide_eq_false_iff_not, not_lt]
      omega
    simp [validate_bucket_id, hb, hre]
  · intro h1 h2 hre h3
    have hb : (s.length < 3 || 63 < s.length) = false := by
      simp only [Bool.or_eq_false_iff, decide_eq_false_iff_not, not_lt]
      omega
    have hb3 : (decide (s.data.head? = some '-')
        || decide (s.data.getLast? = some '-')) = true := by
      simpa using h3
    simp [validate_bucket_id, hb, hre, hb3]
  · intro h1 h2 hre
    have hb : (s.length < 3 || 63 < s.length) = false := by
      simp only [Bool.or_eq_false_iff, decide_eq_false_iff_not, not_lt]
      omega
    simp [validate_object_id, hb, hre]
  · intro h1 h2 hre h3
    have hb : (s.length < 3 || 63 < s.length) = false := by
      simp only [Bool.or_eq_false_iff, decide_eq_false_iff_not, not_lt]
      omega
    have hb3 : (reMatchLeadingHyphenDot s || reMatchTrailingHyphenDot s) = true := by
      simpa using h3
    simp [validate_object_id, hb, hre, hb3]

/-- Witness for `c7_amended_validator_characterization` at concrete
strings, discharging the hypotheses of its conditional conjuncts. -/
theorem c7_amended_witness :
    validate_bucket_id "my-bucket" = none ∧
    validate_bucket_id "ab" = some (.bucketIdValidationError "ab"
      "must be between 3 and 63 character long") ∧
    validate_bucket_id "aB3" = some (.bucketIdValidationError "aB3"
      "only lowercase letters, numbers, and hyphens (-) are allowd") ∧
    validate_bucket_id "-ab" = some (.bucketIdValidationError "-ab"
      "may not start or end with a hyphen (-).") ∧
    validate_object_id "a_b" = some (.objectIdValidationError "a_b"
      "only letters, numbers, and hyphens (-), and dots (.) are allowd") ∧
    validate_object_id "ab." = some (.objectIdValidationError "ab."
      "may not start or end with a hyphen (-) or a dot (.).") :=
  ⟨(c7_amended_validator_characterization "my-bucket").1.mpr (by decide),
   ((c7_amended_validator_characterization "ab").2.2.1 (by decide)).1,
   (c7_amended_validator_characterization "aB3").2.2.2.1
     (by decide) (by decide) (by decide),
   (c7_amended_validator_characterization "-ab").2.2.2.2.1
     (by decide) (by decide) (by decide) (by decide),
   (c7_amended_validator_characterization "a_b").2.2.2.2.2.1
     (by decide) (by decide) (by decide),
   (c7_amended_validator_characterization "ab.").2.2.2.2.2.2
     (by decide) (by decide) (by decide) (by decide)⟩

theorem check_uploaded_parts_ok_iff (st : ObjectStorageS3)
    (hopen : st.client = true) (uid b o : String)
    (p0 : UploadPart) (rest : List UploadPart) (apq aps : Option Nat) :
    (check_uploaded_parts st uid b o (some (p0 :: rest)) apq aps).result = .ok ()
      ↔ (¬(apq.isSome ∧ (p0 :: rest).length ≠ apq.getD 0) ∧
         ¬(aps.isSome ∧ apq.isSome ∧ apq.getD 0 > 1 ∧ p0.size ≠ aps.getD 0) ∧
         ¬(aps.isSome ∧ ((p0 :: rest).getLastD p0).size > aps.getD 0) ∧
         ¬(((p0 :: rest).getLastD p0).size > p0.size) ∧
         (((p0 :: rest).take ((p0 :: rest).length - 1)).drop 1).find?
           (fun part => part.size != p0.size) = none) := by
  unfold check_uploaded_parts
  rw [hopen]
  simp only [Bool.not_true, Bool.false_eq_true, if_false]
  split
  · rename_i h
    simp only [tRaise, reduceCtorEq, false_iff]
    rintro ⟨hc, -⟩
    exact hc h
  · rename_i h1
    split
    · rename_i h2
      simp only [tRaise, reduceCtorEq, false_iff]
      rintro ⟨-, hc, -⟩
      exact hc h2
    · rename_i h2
      split
      · rename_i h3
        simp only [tRaise, reduceCtorEq, false_iff]
        rintro ⟨-, -, hc, -⟩
        exact hc h3
      · rename_i h3
        split
        · rename_i h4
          simp only [tRaise, reduceCtorEq, false_iff]
          rintro ⟨-, -, -, hc, -⟩
          exact hc h4
        · rename_i h4
          split
          · rename_i part hfind
            simp only [tRaise, reduceCtorEq, false_iff]
            rintro ⟨-, -, -, -, hc⟩
            rw [hfind] at hc
            cases hc
          · rename_i hfind
            simp only [tOk, true_iff]
            exact ⟨h1, h2, h3, h4, hfind⟩

/-- Every character of the decimal rendering of a natural number is an
ASCII digit (`Nat.repr` via `Nat.toDigitsCore` with base 10). -/
theorem digitChar_isDigit (n : Nat) (h : n < 10) :
    (Nat.digitChar n).isDigit = true := by
  interval_cases n <;> decide

theorem toDigitsCore_all_digits (fuel : Nat) :
    ∀ (n : Nat) (ds : List Char), (∀ c ∈ ds, c.isDigit = true) →
    ∀ c ∈ Nat.toDigitsCore 10 fuel n ds, c.isDigit = true := by
  induction fuel with
  | zero =>
    intro n ds hds c hc
    exact hds c hc
  | succ f ih =>
    intro n ds hds c hc
    unfold Nat.toDigitsCore at hc
    dsimp only at hc
    split at hc
    · rcases List.mem_cons.mp hc with h | h
      · subst h
        exact digitChar_isDigit _ (Nat.mod_lt _ (by omega))
      · exact hds c h
    · refine ih (n / 10) (Nat.digitChar (n % 10) :: ds) ?_ c hc
      intro c2 hc2
      rcases List.mem_cons.mp hc2 with h | h
      · subst h
        exact digitChar_isDigit _ (Nat.mod_lt _ (by omega))
      · exact hds c2 h

theorem toString_nat_all_digits (n : Nat) :
    ∀ c ∈ (toString n).data, c.isDigit = true := by
  intro c hc
  have hrepr : (toString n).data = Nat.toDigitsCore 10 (n + 1) n [] := rfl
  rw [hrepr] at hc
  exact toDigitsCore_all_digits (n + 1) n [] (by simp) c hc

theorem isPrefixOf_append_left (q c t : List Char)
    (h : q.isPrefixOf c = true) : q.isPrefixOf (c ++ t) = true := by
  rw [List.isPrefixOf_iff_prefix] at h ⊢
  exact h.trans (List.prefix_append c t)

theorem isPrefixOf_append_eq_false (q c t : List Char) (m : Nat)
    (hmq : m ≤ q.length) (hmc : m ≤ c.length) (hne : c.take m ≠ q.take m) :
    q.isPrefixOf (c ++ t) = false := by
  by_contra hb
  rw [Bool.not_eq_false, List.isPrefixOf_iff_prefix] at hb
  have h1 : q = (c ++ t).take q.length := List.prefix_iff_eq_take.mp hb
  apply hne
  have h2 : q.take m = ((c ++ t).take q.length).take m := by rw [← h1]
  rw [List.take_take, Nat.min_eq_left hmq, List.take_append_of_le_length hmc]
    at h2
  exact h2.symm

theorem string_ne_of_take (r s : String) (m : Nat)
    (h : r.data.take m ≠ s.data.take m) : r ≠ s := by
  intro he
  rw [he] at h
  exact h rfl

/-- Formalisation of the claim's distinguishing-reason guarantee: a decoder
that recovers, from a `_check_uploaded_parts` reason string alone, which
consistency rule it reports — 0 zero parts, 1 part-quantity mismatch,
2 first-part/anticipated-size mismatch, 3 last part exceeding the
anticipated size, 4 last part exceeding the first part, 5 interior-part
size mismatch (6 for none of them). The two last-part messages share their
prefix up to the interpolated decimal size, so they are told apart by the
constant text that follows the digits. -/
def confirmReasonKind (r : String) : Nat :=
  if r = "Zero parts received." then 0
  else if "Found ".data.isPrefixOf r.data then 1
  else if "The first part has a size of ".data.isPrefixOf r.data then 2
  else if "The last part has a size of ".data.isPrefixOf r.data then
    (if " bytes which is larger than the anticipated".data.isPrefixOf
        ((r.data.drop "The last part has a size of ".length).dropWhile
          Char.isDigit) then 3
     else 4)
  else if "Part number ".data.isPrefixOf r.data then 5
  else 6

theorem kind_quantity (q : Nat) (oq : Option Nat) :
    confirmReasonKind ("Found " ++ toString q ++ " parts but expect "
      ++ pyReprOptNat oq ++ ".") = 1 := by
  have hdata : ("Found " ++ toString q ++ " parts but expect "
      ++ pyReprOptNat oq ++ ".").data
      = "Found ".data ++ ((toString q).data ++ (" parts but expect ".data
        ++ ((pyReprOptNat oq).data ++ ".".data))) := by
    simp only [show ∀ a b : String, (a ++ b).data = a.data ++ b.data
      from fun a b => rfl, List.append_assoc]
  unfold confirmReasonKind
  rw [if_neg, if_pos]
  · rw [hdata]
    exact isPrefixOf_append_left _ _ _ (by decide)
  · apply string_ne_of_take _ _ 1
    rw [hdata, List.take_append_of_le_length (by decide)]
    decide

theorem kind_zero : confirmReasonKind "Zero parts received." = 0 := by decide

theorem kind_first (fs : Nat) (oq : Option Nat) :
    confirmReasonKind ("The first part has a size of " ++ toString fs
      ++ " bytes but expected " ++ pyReprOptNat oq ++ ".") = 2 := by
  have hdata : ("The first part has a size of " ++ toString fs
      ++ " bytes but expected " ++ pyReprOptNat oq ++ ".").data
      = "The first part has a size of ".data ++ ((toString fs).data
        ++ (" bytes but expected ".data ++ ((pyReprOptNat oq).data
          ++ ".".data))) := by
    simp only [show ∀ a b : String, (a ++ b).data = a.data ++ b.data
      from fun a b => rfl, List.append_assoc]
  unfold confirmReasonKind
  rw [if_neg, if_neg, if_pos]
  · rw [hdata]
    exact isPrefixOf_append_left _ _ _ (by decide)
  · rw [hdata]
    rw [isPrefixOf_append_eq_false _ _ _ 6 (by decide) (by decide) (by decide)]
    decide
  · apply string_ne_of_take _ _ 1
    rw [hdata, List.take_append_of_le_length (by decide)]
    decide

theorem kind_lastAnticipated (ls : Nat) (oq : Option Nat) :
    confirmReasonKind ("The last part has a size of " ++ toString ls
      ++ " bytes which is larger than the anticipated size of "
      ++ pyReprOptNat oq ++ ".") = 3 := by
  have hdata : ("The last part has a size of " ++ toString ls
      ++ " bytes which is larger than the anticipated size of "
      ++ pyReprOptNat oq ++ ".").data
      = "The last part has a size of ".data ++ ((toString ls).data
        ++ (" bytes which is larger than the anticipated size of ".data
          ++ ((pyReprOptNat oq).data ++ ".".data))) := by
    simp only [show ∀ a b : String, (a ++ b).data = a.data ++ b.data
      from fun a b => rfl, List.append_assoc]
  unfold confirmReasonKind
  rw [if_neg, if_neg, if_neg, if_pos, if_pos]
  · rw [hdata]
    rw [show ("The last part has a size of ").length
      = ("The last part has a size of ").data.length from rfl,
      List.drop_left, List.dropWhile_append,
      List.dropWhile_eq_nil_iff.mpr (toString_nat_all_digits ls)]
    simp only [List.isEmpty_nil, if_true]
    rw [List.dropWhile_append,
      show List.dropWhile Char.isDigit
          (" bytes which is larger than the anticipated size of ".data)
        = " bytes which is larger than the anticipated size of ".data
        from by decide]
    rw [if_neg (by decide)]
    exact isPrefixOf_append_left _ _ _ (by decide)
  · rw [hdata]
    exact isPrefixOf_append_left _ _ _ (by decide)
  · rw [hdata]
    rw [isPrefixOf_append_eq_false _ _ _ 28 (by decide) (by decide)
      (by decide)]
    decide
  · rw [hdata]
    rw [isPrefixOf_append_eq_false _ _ _ 6 (by decide) (by decide) (by decide)]
    decide
  · apply string_ne_of_take _ _ 1
    rw [hdata, List.take_append_of_le_length (by decide)]
    decide

theorem kind_lastFirst (ls fs : Nat) :
    confirmReasonKind ("The last part has a size of " ++ toString ls
      ++ " bytes which is larger than the size of the first part"
      ++ " that was " ++ toString fs ++ ".") = 4 := by
  have hdata : ("The last part has a size of " ++ toString ls
      ++ " bytes which is larger than the size of the first part"
      ++ " that was " ++ toString fs ++ ".").data
      = "The last part has a size of ".data ++ ((toString ls).data
        ++ (" bytes which is larger than the size of the first part".data
          ++ (" that was ".data ++ ((toString fs).data ++ ".".data)))) := by
    simp only [show ∀ a b : String, (a ++ b).data = a.data ++ b.data
      from fun a b => rfl, List.append_assoc]
  unfold confirmReasonKind
  rw [if_neg, if_neg, if_neg, if_pos, if_neg]
  · rw [hdata]
    rw [show ("The last part has a size of ").length
      = ("The last part has a size of ").data.length from rfl,
      List.drop_left, List.dropWhile_append,
      List.dropWhile_eq_nil_iff.mpr (toString_nat_all_digits ls)]
    simp only [List.isEmpty_nil, if_true]
    rw [List.dropWhile_append,
      show List.dropWhile Char.isDigit
          (" bytes which is larger than the size of the first part".data)
        = " bytes which is larger than the size of the first part".data
        from by decide]
    rw [if_neg (by decide)]
    rw [isPrefixOf_append_eq_false _ _ _ 43 (by decide) (by decide)
      (by decide)]
    decide
  · rw [hdata]
    exact isPrefixOf_append_left _ _ _ (by decide)
  · rw [hdata]
    rw [isPrefixOf_append_eq_false _ _ _ 28 (by decide) (by decide)
      (by decide)]
    decide
  · rw [hdata]
    rw [isPrefixOf_append_eq_false _ _ _ 6 (by decide) (by decide) (by decide)]
    decide
  · apply string_ne_of_take _ _ 1
    rw [hdata, List.take_append_of_le_length (by decide)]
    decide

theorem kind_interior (pn sz fs : Nat) :
    confirmReasonKind ("Part number " ++ toString pn ++ " has a size of "
      ++ toString sz ++ " bytes which is different than the size of the"
      ++ " first part " ++ toString fs ++ ".") = 5 := by
  have hdata : ("Part number " ++ toString pn ++ " has a size of "
      ++ toString sz ++ " bytes which is different than the size of the"
      ++ " first part " ++ toString fs ++ ".").data
      = "Part number ".data ++ ((toString pn).data ++ (" has a size of ".data
        ++ ((toString sz).data
          ++ (" bytes which is different than the size of the".data
            ++ (" first part ".data ++ ((toString fs).data
              ++ ".".data)))))) := by
    simp only [show ∀ a b : String, (a ++ b).data = a.data ++ b.data
      from fun a b => rfl, List.append_assoc]
  unfold confirmReasonKind
  rw [if_neg, if_neg, if_neg, if_neg, if_pos]
  · rw [hdata]
    exact isPrefixOf_append_left _ _ _ (by decide)
  · rw [hdata]
    rw [isPrefixOf_append_eq_false _ _ _ 12 (by decide) (by decide)
      (by decide)]
    decide
  · rw [hdata]
    rw [isPrefixOf_append_eq_false _ _ _ 12 (by decide) (by decide)
      (by decide)]
    decide
  · rw [hdata]
    rw [isPrefixOf_append_eq_false _ _ _ 6 (by decide) (by decide) (by decide)]
    decide
  · apply string_ne_of_take _ _ 1
    rw [hdata, List.take_append_of_le_length (by decide)]
    decide

/-- C2 (counterexample): three parts of sizes 10, 10, 3 with
`anticipated_part_size = 5` and no anticipated quantity pass the check with
no error, although the first part's size differs from the anticipated size
(with more than one part present) and parts exceed the anticipated size. -/
theorem c2_counterexample :
    (check_uploaded_parts ⟨true, true⟩ "u1" "bkt" "obj"
        (some [⟨1, 10, "e1"⟩, ⟨2, 10, "e2"⟩, ⟨3, 3, "e3"⟩])
        none (some 5)).result = .ok ()
    ∧ (10 : Nat) ≠ 5 ∧ 5 < (10 : Nat) := by
  refine ⟨rfl, by decide, by decide⟩

/-- C2 (amended): an inventory with zero parts (`Parts` absent or empty)
is rejected; with a nonempty inventory the check passes exactly when the
part count equals `anticipated_part_quantity` whenever that is supplied,
the first part's size equals `anticipated_part_size` whenever both hints
are supplied with a quantity above one, the last part's size does not
exceed `anticipated_part_size` whenever that is supplied, the last part's
size does not exceed the first part's, and every interior part's size
equals the first part's; every rejection is a `MultiPartUploadConfirmError`
for the upload's coordinates whose reason distinguishes the violated rule
from the other violations: each rule raises its own reason template, and
`confirmReasonKind` recovers the rule from the reason string alone for all
interpolated values, so reasons of different violations are pairwise
distinct. -/
theorem c2_amended_check_uploaded_parts (st : ObjectStorageS3)
    (hopen : st.client = true) (uid b o : String) (apq aps : Option Nat) :
    ((check_uploaded_parts st uid b o none apq aps).result
      = .error (.multiPartUploadConfirmError uid b o "Zero parts received.")) ∧
    ((check_uploaded_parts st uid b o (some []) apq aps).result
      = .error (.multiPartUploadConfirmError uid b o "Zero parts received.")) ∧
    (∀ (p0 : UploadPart) (rest : List UploadPart),
      ((check_uploaded_parts st uid b o (some (p0 :: rest)) apq aps).result
          = .ok ()
        ↔ ((∀ q, apq = some q → (p0 :: rest).length = q) ∧
           (∀ sz, aps = some sz →
              (∀ q, apq = some q → 1 < q → p0.size = sz) ∧
              ((p0 :: rest).getLastD p0).size ≤ sz) ∧
           ((p0 :: rest).getLastD p0).size ≤ p0.size ∧
           (∀ part ∈ ((p0 :: rest).take ((p0 :: rest).length - 1)).drop 1,
              part.size = p0.size)))) ∧
    (∀ (parts_info : Option (List UploadPart)) (e : StorageError),
      (check_uploaded_parts st uid b o parts_info apq aps).result = .error e →
      ∃ reason, e = .multiPartUploadConfirmError uid b o reason) ∧
    (∀ (p0 : UploadPart) (rest : List UploadPart),
      ((apq.isSome ∧ (p0 :: rest).length ≠ apq.getD 0) →
        (check_uploaded_parts st uid b o (some (p0 :: rest)) apq aps).result
          = .error (.multiPartUploadConfirmError uid b o
              ("Found " ++ toString (p0 :: rest).length
                ++ " parts but expect " ++ pyReprOptNat apq ++ "."))) ∧
      (¬(apq.isSome ∧ (p0 :: rest).length ≠ apq.getD 0) →
        (aps.isSome ∧ apq.isSome ∧ apq.getD 0 > 1 ∧ p0.size ≠ aps.getD 0) →
        (check_uploaded_parts st uid b o (some (p0 :: rest)) apq aps).result
          = .error (.multiPartUploadConfirmError uid b o
              ("The first part has a size of " ++ toString p0.size
                ++ " bytes but expected " ++ pyReprOptNat apq ++ "."))) ∧
      (¬(apq.isSome ∧ (p0 :: rest).length ≠ apq.getD 0) →
        ¬(aps.isSome ∧ apq.isSome ∧ apq.getD 0 > 1 ∧ p0.size ≠ aps.getD 0) →
        (aps.isSome ∧ ((p0 :: rest).getLastD p0).size > aps.getD 0) →
        (check_uploaded_parts st uid b o (some (p0 :: rest)) apq aps).result
          = .error (.multiPartUploadConfirmError uid b o
              ("The last part has a size of "
                ++ toString ((p0 :: rest).getLastD p0).size
                ++ " bytes which is larger than the anticipated size of "
                ++ pyReprOptNat apq ++ "."))) ∧
      (¬(apq.isSome ∧ (p0 :: rest).length ≠ apq.getD 0) →
        ¬(aps.isSome ∧ apq.isSome ∧ apq.getD 0 > 1 ∧ p0.size ≠ aps.getD 0) →
        ¬(aps.isSome ∧ ((p0 :: rest).getLastD p0).size > aps.getD 0) →
        ((p0 :: rest).getLastD p0).size > p0.size →
        (check_uploaded_parts st uid b o (some (p0 :: rest)) apq aps).result
          = .error (.multiPartUploadConfirmError uid b o
              ("The last part has a size of "
                ++ toString ((p0 :: rest).getLastD p0).size
                ++ " bytes which is larger than the size of the first part"
                ++ " that was " ++ toString p0.size ++ "."))) ∧
      (∀ part : UploadPart,
        ¬(apq.isSome ∧ (p0 :: rest).length ≠ apq.getD 0) →
        ¬(aps.isSome ∧ apq.isSome ∧ apq.getD 0 > 1 ∧ p0.size ≠ aps.getD 0) →
        ¬(aps.isSome ∧ ((p0 :: rest).getLastD p0).size > aps.getD 0) →
        ¬(((p0 :: rest).getLastD p0).size > p0.size) →
        (((p0 :: rest).take ((p0 :: rest).length - 1)).drop 1).find?
          (fun q => q.size != p0.size) = some part →
        (check_uploaded_parts st uid b o (some (p0 :: rest)) apq aps).result
          = .error (.multiPartUploadConfirmError uid b o
              ("Part number " ++ toString part.partNumber
                ++ " has a size of " ++ toString part.size
                ++ " bytes which is different than the size of the"
                ++ " first part " ++ toString p0.size ++ ".")))) ∧
    (∀ (n1 n2 n3 : Nat) (o1 : Option Nat),
      confirmReasonKind "Zero parts received." = 0 ∧
      confirmReasonKind ("Found " ++ toString n1 ++ " parts but expect "
        ++ pyReprOptNat o1 ++ ".") = 1 ∧
      confirmReasonKind ("The first part has a size of " ++ toString n1
        ++ " bytes but expected " ++ pyReprOptNat o1 ++ ".") = 2 ∧
      confirmReasonKind ("The last part has a size of " ++ toString n1
        ++ " bytes which is larger than the anticipated size of "
        ++ pyReprOptNat o1 ++ ".") = 3 ∧
      confirmReasonKind ("The last part has a size of " ++ toString n1
        ++ " bytes which is larger than the size of the first part"
        ++ " that was " ++ toString n2 ++ ".") = 4 ∧
      confirmReasonKind ("Part number " ++ toString n1 ++ " has a size of "
        ++ toString n3 ++ " bytes which is different than the size of the"
        ++ " first part " ++ toString n2 ++ ".") = 5) := by
  refine ⟨?_, ?_, ?_, ?_, ?_, ?_⟩
  · simp [check_uploaded_parts, hopen, tRaise]
  · simp [check_uploaded_parts, hopen, tRaise]
  · intro p0 rest
    rw [check_uploaded_parts_ok_iff st hopen uid b o p0 rest apq aps]
    constructor
    · rintro ⟨h1, h2, h3, h4, h5⟩
      refine ⟨?_, ?_, by omega, ?_⟩
      · intro q hq
        rcases apq with - | q2
        · cases hq
        · cases hq
          by_contra hne
          exact h1 ⟨rfl, by simpa using hne⟩
      · intro sz hsz
        subst hsz
        constructor
        · intro q hq hq1
          rcases apq with - | q2
          · cases hq
          · cases hq
            by_contra hne
            exact h2 ⟨rfl, rfl, by simpa using hq1, by simpa using hne⟩
        · by_contra hgt
          exact h3 ⟨rfl, by simpa using hgt⟩
      · intro part hmem
        have := List.find?_eq_none.mp h5 part hmem
        simpa using this
    · rintro ⟨h1, h2, h3, h4⟩
      refine ⟨?_, ?_, ?_, by omega, ?_⟩
      · rintro ⟨hs, hne⟩
        rcases apq with - | q
        · cases hs
        · exact hne (by simpa using h1 q rfl)
      · rintro ⟨hs1, hs2, hgt, hne⟩
        rcases aps with - | sz
        · cases hs1
        · rcases apq with - | q
          · cases hs2
          · exact hne (by simpa using (h2 sz rfl).1 q rfl (by simpa using hgt))
      · rintro ⟨hs, hgt⟩
        rcases aps with - | sz
        · cases hs
        · have := (h2 sz rfl).2
          simp at this hgt
          omega
      · rw [List.find?_eq_none]
        intro part hmem
        simpa using h4 part hmem
  · intro parts_info e
    unfold check_uploaded_parts
    rw [hopen]
    simp only [Bool.not_true, Bool.false_eq_true, if_false]
    rcases parts_info with - | parts
    · intro h
      simp only [tRaise] at h
      cases h
      exact ⟨"Zero parts received.", rfl⟩
    · rcases parts with - | ⟨p0, rest⟩
      · intro h
        simp only [tRaise] at h
        cases h
        exact ⟨"Zero parts received.", rfl⟩
      · intro h
        repeat' split at h
        all_goals simp only [tRaise, tOk] at h
        all_goals cases h
        all_goals exact ⟨_, rfl⟩
  · intro p0 rest
    refine ⟨?_, ?_, ?_, ?_, ?_⟩
    · intro h1
      unfold check_uploaded_parts
      rw [hopen]
      simp only [Bool.not_true, Bool.false_eq_true, if_false]
      rw [if_pos h1]
      rfl
    · intro hn1 h2
      unfold check_uploaded_parts
      rw [hopen]
      simp only [Bool.not_true, Bool.false_eq_true, if_false]
      rw [if_neg hn1, if_pos h2]
      rfl
    · intro hn1 hn2 h3
      unfold check_uploaded_parts
      rw [hopen]
      simp only [Bool.not_true, Bool.false_eq_true, if_false]
      rw [if_neg hn1, if_neg hn2, if_pos h3]
      rfl
    · intro hn1 hn2 hn3 h4
      unfold check_uploaded_parts
      rw [hopen]
      simp only [Bool.not_true, Bool.false_eq_true, if_false]
      rw [if_neg hn1, if_neg hn2, if_neg hn3, if_pos h4]
      rfl
    · intro part hn1 hn2 hn3 hn4 hfind
      unfold check_uploaded_parts
      rw [hopen]
      simp only [Bool.not_true, Bool.false_eq_true, if_false]
      rw [if_neg hn1, if_neg hn2, if_neg hn3, if_neg hn4, hfind]
      rfl
  · intro n1 n2 n3 o1
    exact ⟨kind_zero, kind_quantity n1 o1, kind_first n1 o1,
      kind_lastAnticipated n1 o1, kind_lastFirst n1 n2,
      kind_interior n1 n3 n2⟩

/-- Witness for `c2_amended_check_uploaded_parts` at a concrete open
adapter: the zero-parts rejection, acceptance of a well-formed inventory
with both hints supplied, a concrete quantity violation carrying its
distinguishing reason, and the decoder recovering that rule from the
reason. -/
theorem c2_amended_witness :
    (check_uploaded_parts ⟨true, true⟩ "u1" "bkt" "obj" none none none).result
      = .error (.multiPartUploadConfirmError "u1" "bkt" "obj"
          "Zero parts received.") ∧
    (check_uploaded_parts ⟨true, true⟩ "u1" "bkt" "obj"
        (some [⟨1, 10, "e1"⟩, ⟨2, 10, "e2"⟩, ⟨3, 3, "e3"⟩])
        (some 3) (some 10)).result = .ok () ∧
    (check_uploaded_parts ⟨true, true⟩ "u1" "bkt" "obj"
        (some [⟨1, 10, "e1"⟩]) (some 2) none).result
      = .error (.multiPartUploadConfirmError "u1" "bkt" "obj"
          ("Found " ++ toString (1 : Nat) ++ " parts but expect "
            ++ pyReprOptNat (some 2) ++ ".")) ∧
    confirmReasonKind ("Found " ++ toString (1 : Nat)
      ++ " parts but expect " ++ pyReprOptNat (some 2) ++ ".") = 1 :=
  ⟨(c2_amended_check_uploaded_parts ⟨true, true⟩ rfl "u1" "bkt" "obj"
      none none).1,
   ((c2_amended_check_uploaded_parts ⟨true, true⟩ rfl "u1" "bkt" "obj"
        (some 3) (some 10)).2.2.1 ⟨1, 10, "e1"⟩
        [⟨2, 10, "e2"⟩, ⟨3, 3, "e3"⟩]).mpr
      ⟨fun q hq => by cases hq; rfl,
       fun sz hsz => by
         cases hsz
         exact ⟨fun q hq _ => by cases hq; rfl, by decide⟩,
       by decide, by decide⟩,
   ((c2_amended_check_uploaded_parts ⟨true, true⟩ rfl "u1" "bkt" "obj"
        (some 2) none).2.2.2.2.1 ⟨1, 10, "e1"⟩ []).1 (by decide),
   ((c2_amended_check_uploaded_parts ⟨true, true⟩ rfl "u1" "bkt" "obj"
        (some 2) none).2.2.2.2.2 1 2 3 (some 2)).2.1⟩

theorem strContainsSub_of_append (a c b : String) :
    strContainsSub (a ++ c ++ b) c = true := by
  unfold strContainsSub
  rw [List.any_eq_true]
  refine ⟨a.data.length, ?_, ?_⟩
  · rw [List.mem_range]
    have h : (a ++ c ++ b).data = a.data ++ c.data ++ b.data := rfl
    rw [h]
    simp only [List.length_append]
    omega
  · have h : (a ++ c ++ b).data = a.data ++ (c.data ++ b.data) := by
      show (a.data ++ c.data ++ b.data : List Char) = _
      rw [List.append_assoc]
    rw [h, List.drop_left, List.isPrefixOf_iff_prefix]
    exact List.prefix_append c.data b.data

/-- C8 (counterexample): a backend `NoSuchUpload` error translated without
an upload id in context (as at every non-multipart call site, e.g. a
download-URL request) makes the translator raise a bare `ValueError`
instead of returning a domain-typed error. -/
theorem c8_counterexample :
    translate_s3_client_errors ⟨"NoSuchUpload"⟩ none (some "bkt") (some "obj")
      = .raisesValueError := by decide

/-- C8 (amended): the translator maps the well-known codes exactly
(`NoSuchBucket`, `BucketAlreadyExists`, `NoSuchKey`,
`ObjectAlreadyInActiveTierError`, and `NoSuchUpload` — the last one only
when upload, bucket and object context are all supplied, a bare local
`ValueError` being raised otherwise); any other code falls back to
case-sensitive keyword matching on the code string (`Bucket` yields a
`BucketError`, else `Object` or `Key` yields an `ObjectError`); and any
remaining code defaults to the generic storage error whose message carries
the raw backend error code. -/
theorem c8_amended_translator_characterization
    (ce : ClientError) (uid bid oid : Option String) :
    (ce.code = "NoSuchBucket" →
      translate_s3_client_errors ce uid bid oid
        = .returns (.bucketNotFoundError bid)) ∧
    (ce.code = "BucketAlreadyExists" →
      translate_s3_client_errors ce uid bid oid
        = .returns (.bucketAlreadyExists bid)) ∧
    (ce.code = "NoSuchKey" →
      translate_s3_client_errors ce uid bid oid
        = .returns (.objectNotFoundError bid oid)) ∧
    (ce.code = "ObjectAlreadyInActiveTierError" →
      translate_s3_client_errors ce uid bid oid
        = .returns (.objectAlreadyExistsError bid oid)) ∧
    (ce.code = "NoSuchUpload" →
      (∀ u b o, uid = some u → bid = some b → oid = some o →
        translate_s3_client_errors ce uid bid oid
          = .returns (.multiPartUploadNotFoundError u b o)) ∧
      ((uid = none ∨ bid = none ∨ oid = none) →
        translate_s3_client_errors ce uid bid oid = .raisesValueError)) ∧
    ((ce.code ≠ "NoSuchBucket" ∧ ce.code ≠ "BucketAlreadyExists" ∧
      ce.code ≠ "NoSuchKey" ∧ ce.code ≠ "ObjectAlreadyInActiveTierError" ∧
      ce.code ≠ "NoSuchUpload") →
      (strContainsSub ce.code "Bucket" = true →
        translate_s3_client_errors ce uid bid oid
          = .returns (.bucketError (format_s3_error_code ce.code))) ∧
      (strContainsSub ce.code "Bucket" = false →
        (strContainsSub ce.code "Object" = true ∨
          strContainsSub ce.code "Key" = true) →
        translate_s3_client_errors ce uid bid oid
          = .returns (.objectError (format_s3_error_code ce.code))) ∧
      (strContainsSub ce.code "Bucket" = false →
        strContainsSub ce.code "Object" = false →
        strContainsSub ce.code "Key" = false →
        translate_s3_client_errors ce uid bid oid
          = .returns (.objectStorageDaoError (format_s3_error_code ce.code)))) ∧
    strContainsSub (format_s3_error_code ce.code) ce.code = true := by
  refine ⟨?_, ?_, ?_, ?_, ?_, ?_, ?_⟩
  · intro h
    simp [translate_s3_client_errors, h]
  · intro h
    simp [translate_s3_client_errors, h]
  · intro h
    simp [translate_s3_client_errors, h]
  · intro h
    simp [translate_s3_client_errors, h]
  · intro h
    constructor
    · intro u b o hu hb ho
      subst hu hb ho
      simp [translate_s3_client_errors, h]
    · intro hnone
      rcases hnone with hn | hn | hn <;> subst hn <;>
        simp [translate_s3_client_errors, h]
  · rintro ⟨h1, h2, h3, h4, h5⟩
    refine ⟨?_, ?_, ?_⟩
    · intro hc
      simp [translate_s3_client_errors, h1, h2, h3, h4, h5, hc]
    · intro hc hok
      rcases hok with hok | hok <;>
        simp [translate_s3_client_errors, h1, h2, h3, h4, h5, hc, hok]
    · intro hb ho hk
      simp [translate_s3_client_errors, h1, h2, h3, h4, h5, hb, ho, hk]
  · exact strContainsSub_of_append ("S3 error with code: " ++ squote)
      ce.code squote

/-- Witness for `c8_amended_translator_characterization` at concrete
codes and contexts. -/
theorem c8_amended_witness :
    translate_s3_client_errors ⟨"NoSuchBucket"⟩ none (some "bkt") none
      = .returns (.bucketNotFoundError (some "bkt")) ∧
    translate_s3_client_errors ⟨"NoSuchUpload"⟩ (some "u1") (some "bkt")
        (some "obj")
      = .returns (.multiPartUploadNotFoundError "u1" "bkt" "obj") ∧
    translate_s3_client_errors ⟨"NoSuchUpload"⟩ none (some "bkt") (some "obj")
      = .raisesValueError ∧
    translate_s3_client_errors ⟨"InvalidBucketName"⟩ none none none
      = .returns (.bucketError (format_s3_error_code "InvalidBucketName")) ∧
    translate_s3_client_errors ⟨"KeyTooLongError"⟩ none none none
      = .returns (.objectError (format_s3_error_code "KeyTooLongError")) ∧
    translate_s3_client_errors ⟨"SlowDown"⟩ none none none
      = .returns (.objectStorageDaoError (format_s3_error_code "SlowDown")) :=
  ⟨(c8_amended_translator_characterization ⟨"NoSuchBucket"⟩ none (some "bkt")
      none).1 rfl,
   ((c8_amended_translator_characterization ⟨"NoSuchUpload"⟩ (some "u1")
      (some "bkt") (some "obj")).2.2.2.2.1 rfl).1 "u1" "bkt" "obj" rfl rfl rfl,
   ((c8_amended_translator_characterization ⟨"NoSuchUpload"⟩ none (some "bkt")
      (some "obj")).2.2.2.2.1 rfl).2 (Or.inl rfl),
   ((c8_amended_translator_characterization ⟨"InvalidBucketName"⟩ none none
      none).2.2.2.2.2.1 (by decide)).1 (by decide),
   ((c8_amended_translator_characterization ⟨"KeyTooLongError"⟩ none none
      none).2.2.2.2.2.1 (by decide)).2.1 (by decide) (Or.inr (by decide)),
   ((c8_amended_translator_characterization ⟨"SlowDown"⟩ none none
      none).2.2.2.2.2.1 (by decide)).2.2 (by decide) (by decide) (by decide)⟩

/-- C1: with the backend reporting upload list `ups`, at most one
confirmed-exclusive upload is admitted per object: `init_multipart_upload`
raises `MultiPartUploadAlreadyExistsError` whenever at least one upload is
active for the object; `get_part_upload_url` and
`complete_multipart_upload` raise `MultipleActiveUploadsError` listing all
offending upload ids whenever more than one upload is active; and when at
most one is active but the given upload id is not among them they raise
`MultiPartUploadNotFoundError`. -/
theorem c1_upload_exclusivity (st : ObjectStorageS3) (hopen : st.client = true)
    (upload_id bucket_id object_id : String)
    (ups : List (String × String))
    (createResp : Except ClientError String)
    (presignResp : Except ClientError String)
    (listPartsResp : Except ClientError (Option (List UploadPart)))
    (completeResp : Except ClientError Unit)
    (apq aps : Option Nat)
    (part_number : Int) (hpn : 0 < part_number ∧ part_number ≤ 10000) :
    (0 < (activeUploadIds ups object_id).length →
      (init_multipart_upload st bucket_id object_id (.ok (some ups))
          createResp).result
        = .error (.multiPartUploadAlreadyExistsError bucket_id object_id)) ∧
    (1 < (activeUploadIds ups object_id).length →
      (get_part_upload_url st upload_id bucket_id object_id part_number
          (.ok (some ups)) presignResp).result
        = .error (.multipleActiveUploadsError bucket_id object_id
            (activeUploadIds ups object_id)) ∧
      (complete_multipart_upload st upload_id bucket_id object_id apq aps
          (.ok (some ups)) listPartsResp completeResp).result
        = .error (.multipleActiveUploadsError bucket_id object_id
            (activeUploadIds ups object_id))) ∧
    ((activeUploadIds ups object_id).length ≤ 1 →
      (activeUploadIds ups object_id).contains upload_id = false →
      (get_part_upload_url st upload_id bucket_id object_id part_number
          (.ok (some ups)) presignResp).result
        = .error (.multiPartUploadNotFoundError upload_id bucket_id object_id) ∧
      (complete_multipart_upload st upload_id bucket_id object_id apq aps
          (.ok (some ups)) listPartsResp completeResp).result
        = .error (.multiPartUploadNotFoundError upload_id bucket_id
            object_id)) := by
  have hlist := list_mulitpart_upload_result st hopen bucket_id object_id ups
  refine ⟨?_, ?_, ?_⟩
  · intro hpos
    simp [init_multipart_upload, assert_no_multipart_upload, hlist, hopen,
      tBind, tRaise, tCall, tOk, hpos, Nat.pos_iff_ne_zero.mp hpos]
  · intro hmult
    constructor
    · simp [get_part_upload_url, assert_multipart_upload_exist, hlist, hopen,
        tBind, tRaise, tCall, tOk, hpn.1, hpn.2, hmult]
    · simp [complete_multipart_upload, get_parts_info,
        assert_multipart_upload_exist, hlist, hopen,
        tBind, tRaise, tCall, tOk, hmult]
  · intro hle hc
    have hnlt : ¬(1 < (activeUploadIds ups object_id).length) := by omega
    have hmem : upload_id ∉ activeUploadIds ups object_id := by simpa using hc
    constructor
    · simp [get_part_upload_url, assert_multipart_upload_exist, hlist, hopen,
        tBind, tRaise, tCall, tOk, hpn.1, hpn.2, hnlt, hmem]
    · simp [complete_multipart_upload, get_parts_info,
        assert_multipart_upload_exist, hlist, hopen,
        tBind, tRaise, tCall, tOk, hnlt, hmem]

/-- Witness for `c1_upload_exclusivity` at concrete backend reports. -/
theorem c1_witness :
    (init_multipart_upload ⟨true, true⟩ "bkt" "obj"
        (.ok (some [("u1", "obj")])) (.ok "u2")).result
      = .error (.multiPartUploadAlreadyExistsError "bkt" "obj") ∧
    (get_part_upload_url ⟨true, true⟩ "u1" "bkt" "obj" 1
        (.ok (some [("u1", "obj"), ("u2", "obj")])) (.ok "url")).result
      = .error (.multipleActiveUploadsError "bkt" "obj" ["u1", "u2"]) ∧
    (get_part_upload_url ⟨true, true⟩ "u9" "bkt" "obj" 1
        (.ok (some [("u1", "obj")])) (.ok "url")).result
      = .error (.multiPartUploadNotFoundError "u9" "bkt" "obj") :=
  ⟨(c1_upload_exclusivity ⟨true, true⟩ rfl "u9" "bkt" "obj" [("u1", "obj")]
      (.ok "u2") (.ok "url") (.ok none) (.ok ()) none none 1 (by decide)).1
      (by decide),
   ((c1_upload_exclusivity ⟨true, true⟩ rfl "u1" "bkt" "obj"
      [("u1", "obj"), ("u2", "obj")] (.ok "u2") (.ok "url") (.ok none) (.ok ())
      none none 1 (by decide)).2.1 (by decide)).1,
   ((c1_upload_exclusivity ⟨true, true⟩ rfl "u9" "bkt" "obj" [("u1", "obj")]
      (.ok "u2") (.ok "url") (.ok none) (.ok ()) none none 1
      (by decide)).2.2 (by decide) (by decide)).1⟩

theorem get_parts_info_trace_shape (st : ObjectStorageS3)
    (uid b o : String)
    (luResp : Except ClientError (Option (List (String × String))))
    (lpResp : Except ClientError (Option (List UploadPart))) :
    ∀ c ∈ (get_parts_info st uid b o luResp lpResp).trace,
      c = .listMultipartUploads b ∨ c = .listParts b o uid := by
  intro c hc
  unfold get_parts_info assert_multipart_upload_exist
    list_mulitpart_upload_for_object at hc
  rcases luResp with ce | ou <;>
    repeat' split at hc <;>
    simp_all [tBind, tCall, tRaise, tOk]

theorem check_uploaded_parts_trace (st : ObjectStorageS3)
    (uid b o : String) (parts_info : Option (List UploadPart))
    (apq aps : Option Nat) :
    (check_uploaded_parts st uid b o parts_info apq aps).trace = [] := by
  unfold check_uploaded_parts
  split
  · rfl
  · split
    · rfl
    · split
      · rfl
      · dsimp only
        split_ifs <;> first
        | rfl
        | (split <;> rfl)

theorem check_uploaded_parts_error_shape (st : ObjectStorageS3)
    (hopen : st.client = true) (uid b o : String)
    (parts_info : Option (List UploadPart)) (apq aps : Option Nat) :
    ∀ e, (check_uploaded_parts st uid b o parts_info apq aps).result
        = .error e →
      ∃ reason, e = .multiPartUploadConfirmError uid b o reason := by
  intro e
  unfold check_uploaded_parts
  rw [hopen]
  simp only [Bool.not_true, Bool.false_eq_true, if_false]
  rcases parts_info with - | parts
  · intro h
    simp only [tRaise] at h
    cases h
    exact ⟨_, rfl⟩
  · rcases parts with - | ⟨p0, rest⟩
    · intro h
      simp only [tRaise] at h
      cases h
      exact ⟨_, rfl⟩
    · intro h
      repeat' split at h
      all_goals simp only [tRaise, tOk] at h
      all_goals cases h
      all_goals exact ⟨_, rfl⟩

/-- C3: `complete_multipart_upload` fetches the part inventory and runs the
consistency check first; whenever the check raises, its
`MultiPartUploadConfirmError` is the operation's outcome and no backend
completion call appears in the trace; when the check passes, the operation
appends exactly one backend completion call carrying the ordered
`(tag, part number)` list assembled from the inventory. -/
theorem c3_complete_checks_before_completion (st : ObjectStorageS3)
    (hopen : st.client = true)
    (upload_id bucket_id object_id : String) (apq aps : Option Nat)
    (listUploadsResp : Except ClientError (Option (List (String × String))))
    (listPartsResp : Except ClientError (Option (List UploadPart)))
    (completeResp : Except ClientError Unit)
    (parts_info : Option (List UploadPart))
    (hfetch : (get_parts_info st upload_id bucket_id object_id listUploadsResp
        listPartsResp).result = .ok parts_info) :
    (∀ e, (check_uploaded_parts st upload_id bucket_id object_id parts_info
          apq aps).result = .error e →
      (complete_multipart_upload st upload_id bucket_id object_id apq aps
          listUploadsResp listPartsResp completeResp).result = .error e ∧
      (∃ reason,
        e = .multiPartUploadConfirmError upload_id bucket_id object_id
          reason) ∧
      (∀ c ∈ (complete_multipart_upload st upload_id bucket_id object_id apq
          aps listUploadsResp listPartsResp completeResp).trace,
        c.isCompletionCall = false)) ∧
    ((check_uploaded_parts st upload_id bucket_id object_id parts_info
        apq aps).result = .ok () →
      (complete_multipart_upload st upload_id bucket_id object_id apq aps
          listUploadsResp listPartsResp completeResp).trace
        = (get_parts_info st upload_id bucket_id object_id listUploadsResp
            listPartsResp).trace
          ++ [.completeMultipartUploadCall bucket_id object_id upload_id
                ((parts_info.getD []).map
                  (fun part => (part.eTag, part.partNumber)))] ∧
      (completeResp = .ok () →
        (complete_multipart_upload st upload_id bucket_id object_id apq aps
            listUploadsResp listPartsResp completeResp).result = .ok ())) := by
  have htr := check_uploaded_parts_trace st upload_id bucket_id object_id
    parts_info apq aps
  constructor
  · intro e he
    refine ⟨?_, check_uploaded_parts_error_shape st hopen upload_id bucket_id
      object_id parts_info apq aps e he, ?_⟩
    · simp [complete_multipart_upload, hopen, hfetch, he]
    · intro c hc
      simp [complete_multipart_upload, hopen, hfetch, he, htr] at hc
      rcases get_parts_info_trace_shape st upload_id bucket_id object_id
        listUploadsResp listPartsResp c hc with h | h <;> subst h <;> rfl
  · intro hok
    constructor
    · simp [complete_multipart_upload, hopen, hfetch, hok, htr, tCall]
    · intro hcr
      subst hcr
      simp [complete_multipart_upload, hopen, hfetch, hok, tCall]

/-- Witness for `c3_complete_checks_before_completion`: a concrete passing
inventory leads to exactly one completion call with the ordered tag list. -/
theorem c3_witness :
    (complete_multipart_upload ⟨true, true⟩ "u1" "bkt" "obj" none none
        (.ok (some [("u1", "obj")]))
        (.ok (some [⟨1, 10, "e1"⟩, ⟨2, 3, "e2"⟩]))
        (.ok ())).trace
      = [.listMultipartUploads "bkt", .listParts "bkt" "obj" "u1",
         .completeMultipartUploadCall "bkt" "obj" "u1" [("e1", 1), ("e2", 2)]] ∧
    (complete_multipart_upload ⟨true, true⟩ "u1" "bkt" "obj" none none
        (.ok (some [("u1", "obj")]))
        (.ok (some [⟨1, 10, "e1"⟩, ⟨2, 3, "e2"⟩]))
        (.ok ())).result = .ok () := by
  have h := (c3_complete_checks_before_completion ⟨true, true⟩ rfl "u1" "bkt"
    "obj" none none (.ok (some [("u1", "obj")]))
    (.ok (some [⟨1, 10, "e1"⟩, ⟨2, 3, "e2"⟩])) (.ok ())
    (some [⟨1, 10, "e1"⟩, ⟨2, 3, "e2"⟩]) rfl).2 (by rfl)
  exact ⟨by rw [h.1]; rfl, h.2 rfl⟩

/-- C4 (counterexample): with three uploads active for the object, aborting
one of them performs the backend abort and then raises
`MultipleActiveUploadsError` from the post-abort verification (whose
inventory query re-enforces exclusivity), so `abort_multipart_upload` can
raise `MultipleActiveUploadsError`. -/
theorem c4_counterexample :
    (abort_multipart_upload ⟨true, true⟩ "u1" "bkt" "obj"
        (.ok (some [("u1", "obj"), ("u2", "obj"), ("u3", "obj")]))
        (.ok ())
        (.ok (some [("u2", "obj"), ("u3", "obj")]))
        (.ok (some []))).result
      = .error (.multipleActiveUploadsError "bkt" "obj" ["u2", "u3"]) := by
  rfl

/-- C4 (amended): the pre-abort existence check runs with exclusivity
disabled, so the backend abort call is issued whenever the upload is among
the reported active uploads, regardless of how many there are; after the
abort the part inventory is re-queried: the upload having disappeared from
the active list proves the abort, remaining parts raise
`MultiPartUploadAbortError`, but the verification query itself re-enforces
exclusivity, so more than one remaining active upload raises
`MultipleActiveUploadsError`. -/
theorem c4_amended_abort_verification (st : ObjectStorageS3)
    (hopen : st.client = true)
    (upload_id bucket_id object_id : String)
    (ups1 ups2 : List (String × String))
    (hpre : (activeUploadIds ups1 object_id).contains upload_id = true)
    (listPartsResp : Except ClientError (Option (List UploadPart))) :
    (.abortMultipartUploadCall bucket_id object_id upload_id
      ∈ (abort_multipart_upload st upload_id bucket_id object_id
          (.ok (some ups1)) (.ok ()) (.ok (some ups2)) listPartsResp).trace) ∧
    ((activeUploadIds ups2 object_id).length ≤ 1 →
      (activeUploadIds ups2 object_id).contains upload_id = false →
      (abort_multipart_upload st upload_id bucket_id object_id
          (.ok (some ups1)) (.ok ()) (.ok (some ups2)) listPartsResp).result
        = .ok ()) ∧
    ((activeUploadIds ups2 object_id).length ≤ 1 →
      (activeUploadIds ups2 object_id).contains upload_id = true →
      ∀ (p0 : UploadPart) (rest : List UploadPart),
        listPartsResp = .ok (some (p0 :: rest)) →
        (abort_multipart_upload st upload_id bucket_id object_id
            (.ok (some ups1)) (.ok ()) (.ok (some ups2)) listPartsResp).result
          = .error (.multiPartUploadAbortError upload_id bucket_id
              object_id)) ∧
    (1 < (activeUploadIds ups2 object_id).length →
      (abort_multipart_upload st upload_id bucket_id object_id
          (.ok (some ups1)) (.ok ()) (.ok (some ups2)) listPartsResp).result
        = .error (.multipleActiveUploadsError bucket_id object_id
            (activeUploadIds ups2 object_id))) := by
  have hlist1 := list_mulitpart_upload_result st hopen bucket_id object_id ups1
  have hlist2 := list_mulitpart_upload_result st hopen bucket_id object_id ups2
  have hm1 : upload_id ∈ activeUploadIds ups1 object_id := by simpa using hpre
  refine ⟨?_, ?_, ?_, ?_⟩
  · simp [abort_multipart_upload, assert_multipart_upload_exist,
      get_parts_info, hlist1, hlist2, hopen, tBind, tCall, tRaise, tOk, hm1]
  · intro hle hc
    have hnlt : ¬(1 < (activeUploadIds ups2 object_id).length) := by omega
    have hm2 : upload_id ∉ activeUploadIds ups2 object_id := by simpa using hc
    simp [abort_multipart_upload, assert_multipart_upload_exist,
      get_parts_info, hlist1, hlist2, hopen, tBind, tCall, tRaise, tOk,
      hm1, hnlt, hm2]
  · intro hle hc p0 rest hlp
    subst hlp
    have hnlt : ¬(1 < (activeUploadIds ups2 object_id).length) := by omega
    have hm2 : upload_id ∈ activeUploadIds ups2 object_id := by simpa using hc
    simp [abort_multipart_upload, assert_multipart_upload_exist,
      get_parts_info, hlist1, hlist2, hopen, tBind, tCall, tRaise, tOk,
      hm1, hnlt, hm2]
  · intro hmult
    simp [abort_multipart_upload, assert_multipart_upload_exist,
      get_parts_info, hlist1, hlist2, hopen, tBind, tCall, tRaise, tOk,
      hm1, hmult]

/-- Witness for `c4_amended_abort_verification` at concrete states: a
verified abort (upload gone afterwards) and a failed abort (upload still
listed with a remaining part). -/
theorem c4_amended_witness :
    (.abortMultipartUploadCall "bkt" "obj" "u1"
      ∈ (abort_multipart_upload ⟨true, true⟩ "u1" "bkt" "obj"
          (.ok (some [("u1", "obj")])) (.ok ()) (.ok (some []))
          (.ok none)).trace) ∧
    (abort_multipart_upload ⟨true, true⟩ "u1" "bkt" "obj"
        (.ok (some [("u1", "obj")])) (.ok ()) (.ok (some []))
        (.ok none)).result = .ok () ∧
    (abort_multipart_upload ⟨true, true⟩ "u1" "bkt" "obj"
        (.ok (some [("u1", "obj")])) (.ok ())
        (.ok (some [("u1", "obj")]))
        (.ok (some [⟨1, 5, "e1"⟩]))).result
      = .error (.multiPartUploadAbortError "u1" "bkt" "obj") :=
  ⟨(c4_amended_abort_verification ⟨true, true⟩ rfl "u1" "bkt" "obj"
      [("u1", "obj")] [] (by decide) (.ok none)).1,
   (c4_amended_abort_verification ⟨true, true⟩ rfl "u1" "bkt" "obj"
      [("u1", "obj")] [] (by decide) (.ok none)).2.1 (by decide) (by decide),
   (c4_amended_abort_verification ⟨true, true⟩ rfl "u1" "bkt" "obj"
      [("u1", "obj")] [("u1", "obj")] (by decide)
      (.ok (some [⟨1, 5, "e1"⟩]))).2.2.1 (by decide) (by decide)
      ⟨1, 5, "e1"⟩ [] rfl⟩

instance exceptDecidableEq {e a : Type} [DecidableEq e] [DecidableEq a] :
    DecidableEq (Except e a) := fun x y =>
  match x, y with
  | .error a1, .error a2 =>
    if h : a1 = a2 then isTrue (by rw [h])
    else isFalse (by intro hc; cases hc; exact h rfl)
  | .ok a1, .ok a2 =>
    if h : a1 = a2 then isTrue (by rw [h])
    else isFalse (by intro hc; cases hc; exact h rfl)
  | .error _, .ok _ => isFalse (by intro hc; cases hc)
  | .ok _, .error _ => isFalse (by intro hc; cases hc)

/-- C5 (counterexample): after `__exit__` (which clears only the client
handle) `delete_bucket` passes its own session guard, which tests the
resource handle, and an invalid bucket id then raises a validation error
instead of `OutOfContextError`. -/
theorem c5_counterexample :
    ObjectStorageS3.mkNew.enter.exitContext.client = false ∧
    (delete_bucket ObjectStorageS3.mkNew.enter.exitContext "-x!" false
        (.ok []) (.ok ())).result
      = .error (.bucketIdValidationError "-x!"
          "only lowercase letters, numbers, and hyphens (-) are allowd") ∧
    (delete_bucket ObjectStorageS3.mkNew.enter.exitContext "-x!" false
        (.ok []) (.ok ())).result ≠ .error .outOfContextError := by
  refine ⟨rfl, rfl, by decide⟩

/-- C5 (amended): with the client handle unset — which holds both before
`__enter__` and after `__exit__` — every Port operation except
`delete_bucket` raises `OutOfContextError` before issuing any backend
call; `delete_bucket` guards on the resource handle instead, which
`__exit__` never clears: before `__enter__` it raises `OutOfContextError`
directly, while after `__exit__` it validates the bucket id first (an
invalid id raises the validation error) and reaches `OutOfContextError`
only through the nested bucket-existence check. -/
theorem c5_amended_out_of_context (st : ObjectStorageS3)
    (hcl : st.client = false)
    (b o sb so db dobj uid : String) (pn : Int)
    (exp : Nat) (msize : Option Nat) (md5 : Option String)
    (apq aps : Option Nat) (dc : Bool)
    (lb lb2 : Except ClientError (List String))
    (hr hr2 : Except ClientError Unit)
    (pp : Except ClientError (String × List (String × String)))
    (ps psu : Except ClientError String)
    (lu lu2 : Except ClientError (Option (List (String × String))))
    (lp : Except ClientError (Option (List UploadPart)))
    (u1 u2 u3 : Except ClientError Unit)
    (cs : Except ClientError String) :
    does_bucket_exist st b lb = ⟨.error .outOfContextError, []⟩ ∧
    create_bucket st b lb u1 = ⟨.error .outOfContextError, []⟩ ∧
    does_object_exist st b o md5 hr = ⟨.error .outOfContextError, []⟩ ∧
    get_object_upload_url st b o exp msize lb hr pp
      = ⟨.error .outOfContextError, []⟩ ∧
    init_multipart_upload st b o lu cs = ⟨.error .outOfContextError, []⟩ ∧
    get_part_upload_url st uid b o pn lu psu
      = ⟨.error .outOfContextError, []⟩ ∧
    complete_multipart_upload st uid b o apq aps lu lp u1
      = ⟨.error .outOfContextError, []⟩ ∧
    abort_multipart_upload st uid b o lu u1 lu2 lp
      = ⟨.error .outOfContextError, []⟩ ∧
    get_object_download_url st b o exp lb hr ps
      = ⟨.error .outOfContextError, []⟩ ∧
    copy_object st sb so db dobj lb hr lb2 hr2 u2
      = ⟨.error .outOfContextError, []⟩ ∧
    delete_object st b o exp lb hr u3 = ⟨.error .outOfContextError, []⟩ ∧
    (st.resource = false →
      delete_bucket st b dc lb u1 = ⟨.error .outOfContextError, []⟩) ∧
    (st.resource = true →
      (∀ e, validate_bucket_id b = some e →
        (delete_bucket st b dc lb u1).result = .error e) ∧
      (validate_bucket_id b = none →
        (delete_bucket st b dc lb u1).result = .error .outOfContextError)) := by
  refine ⟨?_, ?_, ?_, ?_, ?_, ?_, ?_, ?_, ?_, ?_, ?_, ?_, ?_⟩
  · simp [does_bucket_exist, hcl, tRaise]
  · simp [create_bucket, hcl, tRaise]
  · simp [does_object_exist, hcl, tRaise]
  · simp [get_object_upload_url, hcl, tRaise]
  · simp [init_multipart_upload, hcl, tRaise]
  · simp [get_part_upload_url, hcl, tRaise]
  · simp [complete_multipart_upload, hcl, tRaise]
  · simp [abort_multipart_upload, hcl, tRaise]
  · simp [get_object_download_url, hcl, tRaise]
  · simp [copy_object, hcl, tRaise]
  · simp [delete_object, hcl, tRaise]
  · intro hres
    simp [delete_bucket, hres, tRaise]
  · intro hres
    constructor
    · intro e he
      simp [delete_bucket, hres, he, tRaise]
    · intro hv
      simp [delete_bucket, hres, hv, assert_bucket_exists, does_bucket_exist,
        hcl, tBind, tRaise]

/-- Witness for `c5_amended_out_of_context` at the freshly constructed
(never-entered) adapter. -/
theorem c5_amended_witness :
    (does_bucket_exist ObjectStorageS3.mkNew "bkt" (.ok [])
      = ⟨.error .outOfContextError, []⟩) ∧
    (delete_bucket ObjectStorageS3.mkNew "bkt" false (.ok []) (.ok ())
      = ⟨.error .outOfContextError, []⟩) ∧
    (delete_bucket ObjectStorageS3.mkNew.enter.exitContext "bkt" false
        (.ok []) (.ok ())).result = .error .outOfContextError :=
  ⟨(c5_amended_out_of_context ObjectStorageS3.mkNew rfl "bkt" "obj" "sb" "so"
      "db" "do2" "u1" 1 86400 none none none none false (.ok []) (.ok [])
      (.ok ()) (.ok ()) (.ok ("u", [])) (.ok "s") (.ok "s") (.ok none)
      (.ok none) (.ok none) (.ok ()) (.ok ()) (.ok ()) (.ok "uid")).1,
   (c5_amended_out_of_context ObjectStorageS3.mkNew rfl "bkt" "obj" "sb" "so"
      "db" "do2" "u1" 1 86400 none none none none false (.ok []) (.ok [])
      (.ok ()) (.ok ()) (.ok ("u", [])) (.ok "s") (.ok "s") (.ok none)
      (.ok none) (.ok none) (.ok ()) (.ok ()) (.ok ()) (.ok "uid")).2.2.2.2.2.2.2.2.2.2.2.1
      rfl,
   ((c5_amended_out_of_context ObjectStorageS3.mkNew.enter.exitContext rfl
      "bkt" "obj" "sb" "so" "db" "do2" "u1" 1 86400 none none none none false
      (.ok []) (.ok []) (.ok ()) (.ok ()) (.ok ("u", [])) (.ok "s") (.ok "s")
      (.ok none) (.ok none) (.ok none) (.ok ()) (.ok ()) (.ok ())
      (.ok "uid")).2.2.2.2.2.2.2.2.2.2.2.2 rfl).2 (by decide)⟩

theorem translate_returns_not_validation (ce : ClientError)
    (uid bid oid : Option String) :
    ∀ e, translate_s3_client_errors ce uid bid oid = .returns e →
      e.isValidationError = false := by
  intro e h
  unfold translate_s3_client_errors at h
  dsimp only at h
  by_cases h1 : ce.code = "NoSuchBucket"
  · rw [if_pos h1] at h; cases h; rfl
  · rw [if_neg h1] at h
    by_cases h2 : ce.code = "BucketAlreadyExists"
    · rw [if_pos h2] at h; cases h; rfl
    · rw [if_neg h2] at h
      by_cases h3 : ce.code = "NoSuchKey"
      · rw [if_pos h3] at h; cases h; rfl
      · rw [if_neg h3] at h
        by_cases h4 : ce.code = "ObjectAlreadyInActiveTierError"
        · rw [if_pos h4] at h; cases h; rfl
        · rw [if_neg h4] at h
          by_cases h5 : ce.code = "NoSuchUpload"
          · rw [if_pos h5] at h
            rcases uid with - | u <;> rcases bid with - | b2 <;>
              rcases oid with - | o2 <;> cases h <;> rfl
          · rw [if_neg h5] at h
            by_cases h6 : strContainsSub ce.code "Bucket" = true
            · rw [if_pos h6] at h; cases h; rfl
            · rw [if_neg h6] at h
              by_cases h7 : (strContainsSub ce.code "Object"
                  || strContainsSub ce.code "Key") = true
              · rw [if_pos h7] at h; cases h; rfl
              · rw [if_neg h7] at h; cases h; rfl

theorem raised_translate_not_validation (ce : ClientError)
    (uid bid oid : Option String) :
    (raised (translate_s3_client_errors ce uid bid oid)).isValidationError
      = false := by
  cases htr : translate_s3_client_errors ce uid bid oid with
  | returns e2 =>
    simp only [raised, htr]
    exact translate_returns_not_validation ce uid bid oid e2 htr
  | raisesValueError =>
    simp only [raised, htr]
    rfl

theorem tBind_error {α β : Type} (x : TraceM α) (f : α → TraceM β)
    (e : StorageError) (h : (tBind x f).result = .error e) :
    x.result = .error e ∨ ∃ a, x.result = .ok a ∧ (f a).result = .error e := by
  rcases hx : x.result with e2 | a
  · simp only [tBind_result, hx] at h
    cases h
    exact Or.inl rfl
  · simp only [tBind_result, hx] at h
    exact Or.inr ⟨a, rfl, h⟩

theorem tCall_error {α : Type} (c : BackendCall)
    (resp : Except ClientError α) (onErr : ClientError → StorageError)
    (e : StorageError) (h : (tCall c resp onErr).result = .error e) :
    ∃ ce, resp = .error ce ∧ e = onErr ce := by
  rcases resp with ce | a
  · refine ⟨ce, rfl, ?_⟩
    simp only [tCall] at h
    cases h
    rfl
  · simp only [tCall] at h
    cases h

theorem tRaise_error {α : Type} (e0 e : StorageError)
    (h : (tRaise e0 : TraceM α).result = .error e) : e = e0 := by
  simp only [tRaise] at h
  cases h
  rfl

theorem tOk_no_error {α : Type} (a : α) (e : StorageError)
    (h : (tOk a).result = .error e) : False := by
  simp only [tOk] at h
  cases h

theorem list_mulitpart_upload_no_validation (st : ObjectStorageS3)
    (b o : String)
    (lu : Except ClientError (Option (List (String × String)))) :
    ∀ e, (list_mulitpart_upload_for_object st b o lu).result = .error e →
      e.isValidationError = false := by
  intro e h
  unfold list_mulitpart_upload_for_object at h
  split at h
  · cases tRaise_error _ _ h
    rfl
  · rcases tBind_error _ _ _ h with hc | ⟨a, hc, hf⟩
    · obtain ⟨ce, -, he⟩ := tCall_error _ _ _ _ hc
      subst he
      exact raised_translate_not_validation ce none (some b) (some o)
    · rcases a with - | l
      · exact absurd hf (by simp [tOk])
      · exact absurd hf (by simp [tOk])

theorem assert_no_multipart_upload_no_validation (st : ObjectStorageS3)
    (b o : String)
    (lu : Except ClientError (Option (List (String × String)))) :
    ∀ e, (assert_no_multipart_upload st b o lu).result = .error e →
      e.isValidationError = false := by
  intro e h
  unfold assert_no_multipart_upload at h
  rcases tBind_error _ _ _ h with hc | ⟨ids, -, hf⟩
  · exact list_mulitpart_upload_no_validation st b o lu e hc
  · split at hf
    · cases tRaise_error _ _ hf
      rfl
    · exact absurd hf (by simp [tOk])

theorem assert_multipart_upload_exist_no_validation (st : ObjectStorageS3)
    (uid b o : String) (excl : Bool)
    (lu : Except ClientError (Option (List (String × String)))) :
    ∀ e, (assert_multipart_upload_exist st uid b o excl lu).result
        = .error e → e.isValidationError = false := by
  intro e h
  unfold assert_multipart_upload_exist at h
  split at h
  · cases tRaise_error _ _ h
    rfl
  · rcases tBind_error _ _ _ h with hc | ⟨ids, -, hf⟩
    · exact list_mulitpart_upload_no_validation st b o lu e hc
    · split at hf
      · cases tRaise_error _ _ hf
        rfl
      · split at hf
        · cases tRaise_error _ _ hf
          rfl
        · exact absurd hf (by simp [tOk])

theorem get_parts_info_no_validation (st : ObjectStorageS3)
    (uid b o : String)
    (lu : Except ClientError (Option (List (String × String))))
    (lp : Except ClientError (Option (List UploadPart))) :
    ∀ e, (get_parts_info st uid b o lu lp).result = .error e →
      e.isValidationError = false := by
  intro e h
  unfold get_parts_info at h
  split at h
  · cases tRaise_error _ _ h
    rfl
  · rcases tBind_error _ _ _ h with hc | ⟨-, -, hf⟩
    · exact assert_multipart_upload_exist_no_validation st uid b o true lu e hc
    · obtain ⟨ce, -, he⟩ := tCall_error _ _ _ _ hf
      subst he
      exact raised_translate_not_validation ce (some uid) (some b) (some o)

theorem check_uploaded_parts_no_validation (st : ObjectStorageS3)
    (uid b o : String) (pinfo : Option (List UploadPart))
    (apq aps : Option Nat) :
    ∀ e, (check_uploaded_parts st uid b o pinfo apq aps).result = .error e →
      e.isValidationError = false := by
  intro e h
  unfold check_uploaded_parts at h
  dsimp only at h
  repeat' split at h
  all_goals first
  | (cases tRaise_error _ _ h; rfl)
  | exact absurd h (by simp [tOk])

theorem init_multipart_upload_no_validation (st : ObjectStorageS3)
    (b o : String)
    (lu : Except ClientError (Option (List (String × String))))
    (cs : Except ClientError String) :
    ∀ e, (init_multipart_upload st b o lu cs).result = .error e →
      e.isValidationError = false := by
  intro e h
  unfold init_multipart_upload at h
  split at h
  · cases tRaise_error _ _ h
    rfl
  · rcases tBind_error _ _ _ h with hc | ⟨-, -, hf⟩
    · exact assert_no_multipart_upload_no_validation st b o lu e hc
    · obtain ⟨ce, -, he⟩ := tCall_error _ _ _ _ hf
      subst he
      exact raised_translate_not_validation ce none (some b) (some o)

theorem get_part_upload_url_no_validation (st : ObjectStorageS3)
    (uid b o : String) (pn : Int)
    (lu : Except ClientError (Option (List (String × String))))
    (ps : Except ClientError String) :
    ∀ e, (get_part_upload_url st uid b o pn lu ps).result = .error e →
      e.isValidationError = false := by
  intro e h
  unfold get_part_upload_url at h
  split at h
  · cases tRaise_error _ _ h
    rfl
  · split at h
    · cases tRaise_error _ _ h
      rfl
    · rcases tBind_error _ _ _ h with hc | ⟨-, -, hf⟩
      · exact assert_multipart_upload_exist_no_validation st uid b o true
          lu e hc
      · obtain ⟨ce, -, he⟩ := tCall_error _ _ _ _ hf
        subst he
        exact raised_translate_not_validation ce (some uid) (some b) (some o)

theorem complete_multipart_upload_no_validation (st : ObjectStorageS3)
    (uid b o : String) (apq aps : Option Nat)
    (lu : Except ClientError (Option (List (String × String))))
    (lp : Except ClientError (Option (List UploadPart)))
    (cr : Except ClientError Unit) :
    ∀ e, (complete_multipart_upload st uid b o apq aps lu lp cr).result
        = .error e → e.isValidationError = false := by
  intro e h
  unfold complete_multipart_upload at h
  split at h
  · cases tRaise_error _ _ h
    rfl
  · rcases tBind_error _ _ _ h with hc | ⟨pinfo, -, hf⟩
    · exact get_parts_info_no_validation st uid b o lu lp e hc
    · rcases tBind_error _ _ _ hf with hc2 | ⟨-, -, hf2⟩
      · exact check_uploaded_parts_no_validation st uid b o pinfo apq aps e hc2
      · obtain ⟨ce, -, he⟩ := tCall_error _ _ _ _ hf2
        subst he
        exact raised_translate_not_validation ce (some uid) (some b) (some o)

theorem abort_multipart_upload_no_validation (st : ObjectStorageS3)
    (uid b o : String)
    (lu1 : Except ClientError (Option (List (String × String))))
    (ar : Except ClientError Unit)
    (lu2 : Except ClientError (Option (List (String × String))))
    (lp : Except ClientError (Option (List UploadPart))) :
    ∀ e, (abort_multipart_upload st uid b o lu1 ar lu2 lp).result
        = .error e → e.isValidationError = false := by
  intro e h
  unfold abort_multipart_upload at h
  split at h
  · cases tRaise_error _ _ h
    rfl
  · rcases tBind_error _ _ _ h with hc | ⟨-, -, hf⟩
    · exact assert_multipart_upload_exist_no_validation st uid b o false
        lu1 e hc
    · rcases tBind_error _ _ _ hf with hc2 | ⟨-, -, hf2⟩
      · obtain ⟨ce, -, he⟩ := tCall_error _ _ _ _ hc2
        subst he
        exact raised_translate_not_validation ce (some uid) (some b) (some o)
      · dsimp only at hf2
        split at hf2
        · exact absurd hf2 (by simp)
        · rename_i heq
          cases hf2
          exact get_parts_info_no_validation st uid b o lu2 lp _ heq
        · split at hf2
          · split at hf2
            · cases hf2
              rfl
            · exact absurd hf2 (by simp)
          · exact absurd hf2 (by simp)

/-- C6 (counterexample): `init_multipart_upload` with an invalid bucket id
and an invalid object id raises no validation error and issues backend
calls (the upload-listing and creation calls) carrying the invalid
identifiers. -/
theorem c6_counterexample :
    validate_bucket_id "-BAD!" ≠ none ∧
    validate_object_id "x" ≠ none ∧
    (init_multipart_upload ⟨true, true⟩ "-BAD!" "x" (.ok none)
        (.ok "uid-1")).result = .ok "uid-1" ∧
    (init_multipart_upload ⟨true, true⟩ "-BAD!" "x" (.ok none)
        (.ok "uid-1")).trace
      = [.listMultipartUploads "-BAD!", .createMultipartUpload "-BAD!" "x"] :=
  ⟨by decide, by decide, rfl, rfl⟩

/-- C6 (amended): every non-multipart Port operation that accepts bucket or
object identifiers validates them as its first step after the session
guard, so an invalid identifier yields the local validation error with no
backend call issued (bucket before object, and for copy the source pair
before the destination pair); the four multipart operations perform no
identifier validation at all — they never raise a validation error on any
input, and reach the backend with whatever identifiers they were given. -/
theorem c6_amended_identifier_validation (st : ObjectStorageS3)
    (hopen : st.client = true) (hres : st.resource = true)
    (b o sb so db dobj uid : String) (pn : Int) (exp : Nat)
    (msize : Option Nat) (dc : Bool) (apq aps : Option Nat)
    (lb lb2 : Except ClientError (List String))
    (hr hr2 : Except ClientError Unit)
    (pp : Except ClientError (String × List (String × String)))
    (ps psu : Except ClientError String)
    (lu lu2 : Except ClientError (Option (List (String × String))))
    (lp : Except ClientError (Option (List UploadPart)))
    (u1 u2 u3 : Except ClientError Unit)
    (cs : Except ClientError String) :
    (∀ e, validate_bucket_id b = some e →
      does_bucket_exist st b lb = ⟨.error e, []⟩ ∧
      create_bucket st b lb u1 = ⟨.error e, []⟩ ∧
      delete_bucket st b dc lb u1 = ⟨.error e, []⟩ ∧
      does_object_exist st b o none hr = ⟨.error e, []⟩ ∧
      get_object_upload_url st b o exp msize lb hr pp = ⟨.error e, []⟩ ∧
      get_object_download_url st b o exp lb hr ps = ⟨.error e, []⟩ ∧
      delete_object st b o exp lb hr u3 = ⟨.error e, []⟩) ∧
    (validate_bucket_id b = none →
      ∀ e, validate_object_id o = some e →
      does_object_exist st b o none hr = ⟨.error e, []⟩ ∧
      get_object_upload_url st b o exp msize lb hr pp = ⟨.error e, []⟩ ∧
      get_object_download_url st b o exp lb hr ps = ⟨.error e, []⟩ ∧
      delete_object st b o exp lb hr u3 = ⟨.error e, []⟩) ∧
    (∀ e, validate_bucket_id sb = some e →
      copy_object st sb so db dobj lb hr lb2 hr2 u2 = ⟨.error e, []⟩) ∧
    (validate_bucket_id sb = none →
      ∀ e, validate_object_id so = some e →
      copy_object st sb so db dobj lb hr lb2 hr2 u2 = ⟨.error e, []⟩) ∧
    (validate_bucket_id sb = none → validate_object_id so = none →
      ∀ e, validate_bucket_id db = some e →
      copy_object st sb so db dobj lb hr lb2 hr2 u2 = ⟨.error e, []⟩) ∧
    (validate_bucket_id sb = none → validate_object_id so = none →
      validate_bucket_id db = none →
      ∀ e, validate_object_id dobj = some e →
      copy_object st sb so db dobj lb hr lb2 hr2 u2 = ⟨.error e, []⟩) ∧
    (∀ e, (init_multipart_upload st b o lu cs).result = .error e →
      e.isValidationError = false) ∧
    (∀ e, (get_part_upload_url st uid b o pn lu psu).result = .error e →
      e.isValidationError = false) ∧
    (∀ e, (complete_multipart_upload st uid b o apq aps lu lp u1).result
        = .error e → e.isValidationError = false) ∧
    (∀ e, (abort_multipart_upload st uid b o lu u1 lu2 lp).result = .error e →
      e.isValidationError = false) := by
  refine ⟨?_, ?_, ?_, ?_, ?_, ?_,
    init_multipart_upload_no_validation st b o lu cs,
    get_part_upload_url_no_validation st uid b o pn lu psu,
    complete_multipart_upload_no_validation st uid b o apq aps lu lp u1,
    abort_multipart_upload_no_validation st uid b o lu u1 lu2 lp⟩
  · intro e he
    refine ⟨?_, ?_, ?_, ?_, ?_, ?_, ?_⟩ <;>
      simp [does_bucket_exist, create_bucket, delete_bucket, does_object_exist,
        get_object_upload_url, get_object_download_url, delete_object,
        hopen, hres, he, tRaise]
  · intro hvb e he
    refine ⟨?_, ?_, ?_, ?_⟩ <;>
      simp [does_object_exist, get_object_upload_url,
        get_object_download_url, delete_object, hopen, hvb, he, tRaise]
  · intro e he
    simp [copy_object, hopen, he, tRaise]
  · intro h1 e he
    simp [copy_object, hopen, h1, he, tRaise]
  · intro h1 h2 e he
    simp [copy_object, hopen, h1, h2, he, tRaise]
  · intro h1 h2 h3 e he
    simp [copy_object, hopen, h1, h2, h3, he, tRaise]

/-- Witness for `c6_amended_identifier_validation`: a concrete invalid
bucket id is rejected locally with no backend call, and a concrete
multipart failure is not a validation error. -/
theorem c6_amended_witness :
    does_bucket_exist ⟨true, true⟩ "-x!" (.ok [])
      = ⟨.error (.bucketIdValidationError "-x!"
          "only lowercase letters, numbers, and hyphens (-) are allowd"),
         []⟩ ∧
    (StorageError.multiPartUploadAlreadyExistsError "bkt"
        "obj").isValidationError = false :=
  ⟨((c6_amended_identifier_validation ⟨true, true⟩ rfl rfl "-x!" "obj" "sb"
      "so" "db" "do2" "u1" 1 86400 none false none none (.ok []) (.ok [])
      (.ok ()) (.ok ()) (.ok ("u", [])) (.ok "s") (.ok "s") (.ok none)
      (.ok none) (.ok none) (.ok ()) (.ok ()) (.ok ()) (.ok "uid")).1
      (.bucketIdValidationError "-x!"
        "only lowercase letters, numbers, and hyphens (-) are allowd")
      (by decide)).1,
   (c6_amended_identifier_validation ⟨true, true⟩ rfl rfl "bkt" "obj" "sb"
      "so" "db" "do2" "u1" 1 86400 none false none none (.ok []) (.ok [])
      (.ok ()) (.ok ()) (.ok ("u", [])) (.ok "s") (.ok "s")
      (.ok (some [("u9", "obj")])) (.ok none) (.ok none) (.ok ()) (.ok ())
      (.ok ()) (.ok "uid")).2.2.2.2.2.2.1
      (.multiPartUploadAlreadyExistsError "bkt" "obj") rfl⟩

/-- C9 (counterexample): the per-part URL issuance passes no expiry at all
to the backend presign call (there is no argument to override either), so
it does not use the 86400-second default. -/
theorem c9_counterexample :
    (get_part_upload_url ⟨true, true⟩ "u1" "bkt" "obj" 3
        (.ok (some [("u1", "obj")])) (.ok "url")).trace
      = [.listMultipartUploads "bkt",
         .uploadPartPresign "bkt" "obj" "u1" 3 none] ∧
    (none : Option Nat) ≠ some 86400 :=
  ⟨rfl, by decide⟩

theorem tBind_trace_mem {α β : Type} (x : TraceM α) (f : α → TraceM β)
    (c : BackendCall) (h : c ∈ (tBind x f).trace) :
    c ∈ x.trace ∨ ∃ a, x.result = .ok a ∧ c ∈ (f a).trace := by
  rcases hx : x.result with e | a <;> simp only [tBind_trace, hx] at h
  · exact Or.inl h
  · rcases List.mem_append.mp h with h2 | h2
    · exact Or.inl h2
    · exact Or.inr ⟨a, rfl, h2⟩

theorem tCall_trace_mem {α : Type} (cc : BackendCall)
    (resp : Except ClientError α) (onErr : ClientError → StorageError)
    (c : BackendCall) (h : c ∈ (tCall cc resp onErr).trace) : c = cc := by
  simp only [tCall, List.mem_singleton] at h
  exact h

theorem does_bucket_exist_trace_shape (st : ObjectStorageS3) (b : String)
    (lb : Except ClientError (List String)) :
    ∀ c ∈ (does_bucket_exist st b lb).trace, c = .listBuckets := by
  intro c hc
  unfold does_bucket_exist at hc
  split at hc
  · simp [tRaise] at hc
  · split at hc
    · simp [tRaise] at hc
    · rcases tBind_trace_mem _ _ _ hc with h | ⟨a, -, h⟩
      · exact tCall_trace_mem _ _ _ _ h
      · simp [tOk] at h

theorem does_object_exist_trace_shape (st : ObjectStorageS3)
    (b o : String) (md5 : Option String) (hr : Except ClientError Unit) :
    ∀ c ∈ (does_object_exist st b o md5 hr).trace, c = .headObject b o := by
  intro c hc
  unfold does_object_exist at hc
  repeat' split at hc
  all_goals simp_all [tRaise]

theorem assert_bucket_exists_trace_shape (st : ObjectStorageS3) (b : String)
    (lb : Except ClientError (List String)) :
    ∀ c ∈ (assert_bucket_exists st b lb).trace, c = .listBuckets := by
  intro c hc
  unfold assert_bucket_exists at hc
  rcases tBind_trace_mem _ _ _ hc with h | ⟨a, -, h⟩
  · exact does_bucket_exist_trace_shape st b lb c h
  · split at h <;> simp [tRaise, tOk] at h

theorem assert_bucket_not_exists_trace_shape (st : ObjectStorageS3)
    (b : String) (lb : Except ClientError (List String)) :
    ∀ c ∈ (assert_bucket_not_exists st b lb).trace, c = .listBuckets := by
  intro c hc
  unfold assert_bucket_not_exists at hc
  rcases tBind_trace_mem _ _ _ hc with h | ⟨a, -, h⟩
  · exact does_bucket_exist_trace_shape st b lb c h
  · split at h <;> simp [tRaise, tOk] at h

theorem assert_object_exists_trace_shape (st : ObjectStorageS3)
    (b o : String) (lb : Except ClientError (List String))
    (hr : Except ClientError Unit) :
    ∀ c ∈ (assert_object_exists st b o lb hr).trace,
      c = .listBuckets ∨ c = .headObject b o := by
  intro c hc
  unfold assert_object_exists at hc
  rcases tBind_trace_mem _ _ _ hc with h | ⟨-, -, h⟩
  · exact Or.inl (assert_bucket_exists_trace_shape st b lb c h)
  · rcases tBind_trace_mem _ _ _ h with h2 | ⟨a, -, h2⟩
    · exact Or.inr (does_object_exist_trace_shape st b o none hr c h2)
    · split at h2 <;> simp [tRaise, tOk] at h2

theorem assert_object_not_exists_trace_shape (st : ObjectStorageS3)
    (b o : String) (lb : Except ClientError (List String))
    (hr : Except ClientError Unit) :
    ∀ c ∈ (assert_object_not_exists st b o lb hr).trace,
      c = .listBuckets ∨ c = .headObject b o := by
  intro c hc
  unfold assert_object_not_exists at hc
  rcases tBind_trace_mem _ _ _ hc with h | ⟨-, -, h⟩
  · exact Or.inl (assert_bucket_exists_trace_shape st b lb c h)
  · rcases tBind_trace_mem _ _ _ h with h2 | ⟨a, -, h2⟩
    · exact Or.inr (does_object_exist_trace_shape st b o none hr c h2)
    · split at h2 <;> simp [tRaise, tOk] at h2

theorem list_mulitpart_upload_trace_shape (st : ObjectStorageS3)
    (b o : String)
    (lu : Except ClientError (Option (List (String × String)))) :
    ∀ c ∈ (list_mulitpart_upload_for_object st b o lu).trace,
      c = .listMultipartUploads b := by
  intro c hc
  unfold list_mulitpart_upload_for_object at hc
  split at hc
  · simp [tRaise] at hc
  · rcases tBind_trace_mem _ _ _ hc with h | ⟨a, -, h⟩
    · exact tCall_trace_mem _ _ _ _ h
    · rcases a with - | l <;> simp [tOk] at h

theorem assert_multipart_upload_exist_trace_shape (st : ObjectStorageS3)
    (uid b o : String) (excl : Bool)
    (lu : Except ClientError (Option (List (String × String)))) :
    ∀ c ∈ (assert_multipart_upload_exist st uid b o excl lu).trace,
      c = .listMultipartUploads b := by
  intro c hc
  unfold assert_multipart_upload_exist at hc
  split at hc
  · simp [tRaise] at hc
  · rcases tBind_trace_mem _ _ _ hc with h | ⟨a, -, h⟩
    · exact list_mulitpart_upload_trace_shape st b o lu c h
    · split at h
      · simp [tRaise] at h
      · split at h <;> simp [tRaise, tOk] at h

theorem get_object_upload_url_trace_shape (st : ObjectStorageS3)
    (b o : String) (exp : Nat) (msize : Option Nat)
    (lb : Except ClientError (List String)) (hr : Except ClientError Unit)
    (pp : Except ClientError (String × List (String × String))) :
    ∀ c ∈ (get_object_upload_url st b o exp msize lb hr pp).trace,
      c = .listBuckets ∨ c = .headObject b o ∨
      c = .generatePresignedPost b o exp msize := by
  intro c hc
  unfold get_object_upload_url at hc
  split at hc
  · simp [tRaise] at hc
  · split at hc
    · simp [tRaise] at hc
    · split at hc
      · simp [tRaise] at hc
      · rcases tBind_trace_mem _ _ _ hc with h | ⟨-, -, h⟩
        · rcases assert_object_not_exists_trace_shape st b o lb hr c h
            with h2 | h2
          · exact Or.inl h2
          · exact Or.inr (Or.inl h2)
        · rcases tBind_trace_mem _ _ _ h with h2 | ⟨a, -, h2⟩
          · exact Or.inr (Or.inr (tCall_trace_mem _ _ _ _ h2))
          · simp [tOk] at h2

theorem get_object_download_url_trace_shape (st : ObjectStorageS3)
    (b o : String) (exp : Nat)
    (lb : Except ClientError (List String)) (hr : Except ClientError Unit)
    (ps : Except ClientError String) :
    ∀ c ∈ (get_object_download_url st b o exp lb hr ps).trace,
      c = .listBuckets ∨ c = .headObject b o ∨
      c = .getObjectPresign b o exp := by
  intro c hc
  unfold get_object_download_url at hc
  split at hc
  · simp [tRaise] at hc
  · split at hc
    · simp [tRaise] at hc
    · split at hc
      · simp [tRaise] at hc
      · rcases tBind_trace_mem _ _ _ hc with h | ⟨-, -, h⟩
        · rcases assert_object_exists_trace_shape st b o lb hr c h with h2 | h2
          · exact Or.inl h2
          · exact Or.inr (Or.inl h2)
        · exact Or.inr (Or.inr (tCall_trace_mem _ _ _ _ h))

theorem get_part_upload_url_trace_shape (st : ObjectStorageS3)
    (uid b o : String) (pn : Int)
    (lu : Except ClientError (Option (List (String × String))))
    (psu : Except ClientError String) :
    ∀ c ∈ (get_part_upload_url st uid b o pn lu psu).trace,
      c = .listMultipartUploads b ∨
      c = .uploadPartPresign b o uid pn none := by
  intro c hc
  unfold get_part_upload_url at hc
  split at hc
  · simp [tRaise] at hc
  · split at hc
    · simp [tRaise] at hc
    · rcases tBind_trace_mem _ _ _ hc with h | ⟨-, -, h⟩
      · exact Or.inl
          (assert_multipart_upload_exist_trace_shape st uid b o true lu c h)
      · exact Or.inr (tCall_trace_mem _ _ _ _ h)

/-- C9 (amended): `get_object_upload_url` and `get_object_download_url`
pass the caller's `expires_after` (Python signature default 86400) to
every presign call they issue, so the caller can override the 86400
default per call; `get_part_upload_url` has no expiry parameter and issues
its presign call with no expiry argument at all, so the per-part URL uses
neither the 86400 default nor any per-call override. -/
theorem c9_amended_presign_expiry (st : ObjectStorageS3)
    (b o uid : String) (exp : Nat) (msize : Option Nat) (pn : Int)
    (lb : Except ClientError (List String))
    (hr : Except ClientError Unit)
    (pp : Except ClientError (String × List (String × String)))
    (ps psu : Except ClientError String)
    (lu : Except ClientError (Option (List (String × String)))) :
    (∀ b2 o2 e2 m2, .generatePresignedPost b2 o2 e2 m2
        ∈ (get_object_upload_url st b o exp msize lb hr pp).trace →
      e2 = exp ∧ m2 = msize) ∧
    (∀ b2 o2 e2, .getObjectPresign b2 o2 e2
        ∈ (get_object_download_url st b o exp lb hr ps).trace → e2 = exp) ∧
    (get_object_upload_url_default st b o lb hr pp
      = get_object_upload_url st b o 86400 none lb hr pp) ∧
    (get_object_download_url_default st b o lb hr ps
      = get_object_download_url st b o 86400 lb hr ps) ∧
    (∀ b2 o2 u2 p2 e2, .uploadPartPresign b2 o2 u2 p2 e2
        ∈ (get_part_upload_url st uid b o pn lu psu).trace → e2 = none) := by
  refine ⟨?_, ?_, rfl, rfl, ?_⟩
  · intro b2 o2 e2 m2 hmem
    rcases get_object_upload_url_trace_shape st b o exp msize lb hr pp _ hmem
      with h | h | h <;> simp_all
  · intro b2 o2 e2 hmem
    rcases get_object_download_url_trace_shape st b o exp lb hr ps _ hmem
      with h | h | h <;> simp_all
  · intro b2 o2 u2 p2 e2 hmem
    rcases get_part_upload_url_trace_shape st uid b o pn lu psu _ hmem
      with h | h <;> simp_all

/-- Witness for `c9_amended_presign_expiry`: concrete successful calls in
which the presign entries carry expiry 86400 (download) and no expiry
(part upload). -/
theorem c9_amended_witness :
    (86400 : Nat) = 86400 ∧ (none : Option Nat) = none :=
  ⟨(c9_amended_presign_expiry ⟨true, true⟩ "bkt" "obj" "u1" 86400 none 3
      (.ok ["bkt"]) (.ok ()) (.ok ("u", [])) (.ok "url") (.ok "url")
      (.ok (some [("u1", "obj")]))).2.1 "bkt" "obj" 86400 (by decide),
   (c9_amended_presign_expiry ⟨true, true⟩ "bkt" "obj" "u1" 86400 none 3
      (.ok ["bkt"]) (.ok ()) (.ok ("u", [])) (.ok "url") (.ok "url")
      (.ok (some [("u1", "obj")]))).2.2.2.2 "bkt" "obj" "u1" 3 none
      (by decide)⟩
